import Mathlib

set_option maxRecDepth 40000

/-!
# Verification of the Quantitative Risk & Valuation Engine

Shallow embedding of the core computations of `src/tools/risk_analysis.py`
and `src/tools/valuation.py` (plus the `SECTORS` table of `src/config.py`).

Modelling conventions, used consistently below:

* Python floats are modelled as exact rationals `ℚ`.  A float value that the
  source can only produce as `NaN` (e.g. `pandas.Series.std()` over fewer than
  two samples) is modelled as `Option ℚ` with `none` for `NaN`; a Python
  `None` is likewise `none` of `Option ℚ`.  Which of the two a `none` denotes
  is fixed per field and noted at the field.
* `numpy.sqrt` and `scipy.stats.norm.ppf` are irrational-valued, so they are
  taken as function parameters (`sqrtF`, `ppf : ℚ → ℚ`); theorems quantify
  over them, with explicit hypotheses (such as nonnegativity-preservation)
  where a property needs them.
* The ambient global numpy random state consumed by `np.random.choice` is
  modelled as an explicit stream `rng : ℕ → ℕ`; the i-th draw selects index
  `rng i % n` from the sampled series.  The Python function signature exposes
  no such parameter - the stream is process-global state.
* The one data-retrieval round trip per component (`yfinance` fetches) is an
  external collaborator; it enters as the price history / fundamentals
  snapshot argument, or as `fetch : String → Option Info` where a component
  fetches several symbols (`none` models a raised fetch exception).
* The echoed `symbol` string field and date-bookkeeping output fields
  (`peak_date`, `trough_date`, `recovery_date`, `recovery_days` of the
  downside analyzer) are presentation-only pass-through values and are not
  modelled; no claim concerns them.
* Every component body is wrapped in `try/except Exception` returning a
  failure payload; the embedding returns `Except FailPayload R`, where each
  Python exception path (e.g. `max()` of an empty list, `None > 60`) is an
  explicit `.error` branch.
-/

/-! ## Rational-list utilities mirroring numpy/pandas primitives -/

/-- Left-fold sum, as Python/numpy accumulate left to right. -/
def sumQ (l : List ℚ) : ℚ := l.foldl (· + ·) 0

/-- Left-fold product, mirroring `(1 + sample).prod()`. -/
def prodQ (l : List ℚ) : ℚ := l.foldl (· * ·) 1

/-- `numpy.mean` / `pandas.Series.mean` of a list of floats. -/
def meanQ (l : List ℚ) : ℚ := sumQ l / l.length

/-- Insert into a sorted list (ascending). -/
def insort (x : ℚ) : List ℚ → List ℚ
  | [] => [x]
  | y :: ys => if x ≤ y then x :: y :: ys else y :: insort x ys

/-- Sorting, as `numpy` does before percentile/median selection. -/
def sortQ (l : List ℚ) : List ℚ := l.foldl (fun acc x => insort x acc) []

/-- Python `max` over a nonempty list given as head and tail. -/
def pyMax (x : ℚ) (xs : List ℚ) : ℚ := xs.foldl max x

/-- Python `min` over a nonempty list given as head and tail. -/
def pyMin (x : ℚ) (xs : List ℚ) : ℚ := xs.foldl min x

/-- `Series.min()`: `none` on an empty series (the source never hits that
case thanks to its length guards). -/
def listMin : List ℚ → Option ℚ
  | [] => none
  | x :: xs => some (pyMin x xs)

/-- `Series.max()`. -/
def listMax : List ℚ → Option ℚ
  | [] => none
  | x :: xs => some (pyMax x xs)

/-- `pandas.Series.pct_change().dropna()`: elementwise
`(p[i+1] - p[i]) / p[i]`.  Faithful for the nonzero prices every theorem
below assumes; a zero price would produce float `inf`/`NaN` in Python. -/
def pctChange : List ℚ → List ℚ
  | [] => []
  | p :: ps => ((ps.zip (p :: ps)).map fun x => (x.1 - x.2) / x.2)

/-- Sample variance with `ddof = 1`, the pandas/numpy `std` convention,
meaningful only for two or more samples (see `stdQ`). -/
def svarQ (l : List ℚ) : ℚ :=
  sumQ (l.map fun x => (x - meanQ l) * (x - meanQ l)) / ((l.length : ℚ) - 1)

/-- `pandas.Series.std()` (ddof = 1): `NaN` (here `none`) for fewer than two
samples, else the square root of the sample variance. -/
def stdQ (sqrtF : ℚ → ℚ) (l : List ℚ) : Option ℚ :=
  if l.length < 2 then none else some (sqrtF (svarQ l))

/-- `numpy.percentile` with the default linear interpolation; `none` models
the `ValueError` numpy raises for `q` outside `[0, 100]` or an empty input. -/
def npPercentile (l : List ℚ) (q : ℚ) : Option ℚ :=
  if q < 0 ∨ 100 < q then none
  else
    match sortQ l with
    | [] => none
    | x :: rest =>
      let s := x :: rest
      let pos : ℚ := q / 100 * ((l.length : ℚ) - 1)
      let i : ℕ := pos.floor.toNat
      let lo := s.getD i x
      let hi := s.getD (i + 1) lo
      some (lo + (pos - (i : ℚ)) * (hi - lo))

/-- `numpy.median`: `none` (float `NaN`) on an empty list. -/
def medianQ (l : List ℚ) : Option ℚ :=
  match sortQ l with
  | [] => none
  | x :: rest =>
    let s := x :: rest
    let n := s.length
    if n % 2 = 1 then some (s.getD (n / 2) x)
    else some ((s.getD (n / 2 - 1) x + s.getD (n / 2) x) / 2)

/-- Python truthiness of an optional float: `None` and `0.0` are falsy. -/
def truthy : Option ℚ → Bool
  | none => false
  | some q => if q = 0 then false else true

/-! ## JSON values and the `_safe_json_dumps` sanitizer -/

/-- A Python float at a serialization boundary: finite, or one of the three
non-finite values that `json` would print as `NaN`/`Infinity`/`-Infinity`. -/
inductive JNum where
  | nan
  | inf
  | ninf
  | val (q : ℚ)
deriving DecidableEq

/-- JSON-serializable Python object tree (the payloads the tools emit). -/
inductive JValue where
  | null
  | bool (b : Bool)
  | num (x : JNum)
  | str (s : String)
  | arr (xs : List JValue)
  | obj (fields : List (String × JValue))

mutual

/-- The `_sanitize` helper of `_safe_json_dumps` (identical in
`risk_analysis.py` and `valuation.py`): floats that are `NaN` or `±Infinity`
become `None`/`null`; dicts and lists are rewritten recursively; everything
else passes through. -/
def sanitizeJ : JValue → JValue
  | .null => .null
  | .bool b => .bool b
  | .num x =>
    match x with
    | .val q => .num (.val q)
    | _ => .null
  | .str s => .str s
  | .arr xs => .arr (sanitizeList xs)
  | .obj fs => .obj (sanitizeFields fs)

def sanitizeList : List JValue → List JValue
  | [] => []
  | v :: vs => sanitizeJ v :: sanitizeList vs

def sanitizeFields : List (String × JValue) → List (String × JValue)
  | [] => []
  | kv :: fs => (kv.1, sanitizeJ kv.2) :: sanitizeFields fs

end

mutual

/-- No `NaN`/`Infinity` float occurs anywhere in the value. -/
def noBadJ : JValue → Bool
  | .null => true
  | .bool _ => true
  | .num x =>
    match x with
    | .val _ => true
    | _ => false
  | .str _ => true
  | .arr xs => noBadList xs
  | .obj fs => noBadFields fs

def noBadList : List JValue → Bool
  | [] => true
  | v :: vs => noBadJ v && noBadList vs

def noBadFields : List (String × JValue) → Bool
  | [] => true
  | kv :: fs => noBadJ kv.2 && noBadFields fs

end

/-- Field lookup in a JSON object. -/
def getFieldJ (v : JValue) (k : String) : Option JValue :=
  match v with
  | .obj fs => (fs.find? fun p => p.1 = k).map (·.2)
  | _ => none

/-- The uniform failure payload every component returns from its
`except Exception` handler (and from its explicit guard branches):
an `error` string, `DATA_UNAVAILABLE: true`, and an optional `message`. -/
structure FailPayload where
  error : String
  message : Option String := none
deriving DecidableEq

/-- JSON form of the failure payload, in the dict order of the source. -/
def failJson (f : FailPayload) : JValue :=
  .obj ([("error", .str f.error), ("DATA_UNAVAILABLE", .bool true)] ++
    (match f.message with
     | some m => [("message", .str m)]
     | none => []))

/-- Option float rendered where the Python value is a float that may be
`NaN` (e.g. a pandas statistic): `none` is the `NaN` float. -/
def jnan (x : Option ℚ) : JValue :=
  match x with
  | none => .num .nan
  | some q => .num (.val q)

/-- Option float rendered where the Python value is `None` or a float. -/
def jopt (x : Option ℚ) : JValue :=
  match x with
  | none => .null
  | some q => .num (.val q)

/-- Finite float field. -/
def jq (q : ℚ) : JValue := .num (.val q)

/-! ## Data model: fundamentals snapshot, price bars, sector table -/

/-- The fields of the `yfinance` `ticker.info` fundamentals snapshot that
the engine reads (each may be absent). -/
structure Info where
  trailingPE : Option ℚ := none
  forwardPE : Option ℚ := none
  priceToBook : Option ℚ := none
  enterpriseToEbitda : Option ℚ := none
  returnOnEquity : Option ℚ := none
  profitMargins : Option ℚ := none
  marketCap : Option ℚ := none
  currentPrice : Option ℚ := none
  regularMarketPrice : Option ℚ := none
  trailingEps : Option ℚ := none
  forwardEps : Option ℚ := none
  bookValue : Option ℚ := none
  debtToEquity : Option ℚ := none
  totalDebt : Option ℚ := none
  totalStockholderEquity : Option ℚ := none
  interestCoverage : Option ℚ := none
  beta : Option ℚ := none
deriving DecidableEq

/-- One OHLC price bar (the engine reads only High, Low, Close). -/
structure Bar where
  high : ℚ
  low : ℚ
  close : ℚ
deriving DecidableEq

/-- `SECTORS` of `src/config.py` (dict iteration order preserved). -/
def SECTORS : List (String × List String) :=
  [("IT", ["TCS", "INFY", "WIPRO", "HCLTECH", "TECHM", "LTIM", "MPHASIS", "COFORGE"]),
   ("BANKING", ["HDFCBANK", "ICICIBANK", "SBIN", "KOTAKBANK", "AXISBANK", "INDUSINDBK", "BANDHANBNK"]),
   ("PHARMA", ["SUNPHARMA", "DRREDDY", "CIPLA", "DIVISLAB", "APOLLOHOSP", "BIOCON", "LUPIN"]),
   ("AUTO", ["MARUTI", "TATAMOTORS", "M&M", "BAJAJ-AUTO", "HEROMOTOCO", "EICHERMOT", "ASHOKLEY"]),
   ("FMCG", ["HINDUNILVR", "ITC", "NESTLEIND", "BRITANNIA", "TATACONSUM", "DABUR", "MARICO"]),
   ("METALS", ["TATASTEEL", "JSWSTEEL", "HINDALCO", "VEDL", "NMDC", "SAIL", "JINDALSTEL"]),
   ("ENERGY", ["RELIANCE", "ONGC", "BPCL", "NTPC", "POWERGRID", "COALINDIA", "GAIL", "IOC"]),
   ("FINANCE", ["BAJFINANCE", "BAJAJFINSV", "SBILIFE", "HDFCLIFE", "ICICIPRULI", "CHOLAFIN"]),
   ("REALTY", ["DLF", "GODREJPROP", "OBEROIRLTY", "PRESTIGE", "BRIGADE", "SOBHA"]),
   ("TELECOM", ["BHARTIARTL", "IDEA", "TATACOMM"])]

/-- `symbol.upper().strip()` normalization applied at every tool entry. -/
def normSym (s : String) : String := s.toUpper.trim

/-- `_get_nse_symbol`: append the `.NS` Yahoo suffix when missing. -/
def getNseSymbol (s : String) : String :=
  let s := normSym s
  if s.endsWith ".NS" then s else s ++ ".NS"

/-- `_get_sector_for_symbol`: first sector whose stock list contains the
symbol (symbols are assumed already normalized by the caller, as in the
tools, where normalization happens first and is idempotent). -/
def getSectorForSymbol (symbol : String) : Option String :=
  (SECTORS.find? fun p => p.2.contains symbol).map (·.1)

/-- `_get_peer_stocks`: same-sector stocks other than the subject,
truncated to `max_peers`. -/
def getPeerStocks (symbol : String) (max_peers : ℕ) : List String :=
  match getSectorForSymbol symbol with
  | none => []
  | some sector =>
    (((SECTORS.find? fun p => p.1 = sector).map (·.2)).getD []).filter
      (fun s => s ≠ symbol) |>.take max_peers

/-! ## `calculate_var` (src/tools/risk_analysis.py) -/

/-- The three VaR figures of the success payload. -/
structure VarEstimates where
  parametric : ℚ
  historical : ℚ
  average : ℚ
deriving DecidableEq

/-- Success payload of `calculate_var` (numeric core). -/
structure VarRecord where
  confidence_level : ℚ
  period_days : ℕ
  var_estimates : VarEstimates
  annual_volatility : ℚ
  risk_level : String
deriving DecidableEq

/-- The bootstrap of the historical method: 1000 trials, each drawing
`period_days` daily returns with replacement from `returns` (draw number
`t * period_days + j` of the ambient stream) and compounding them. -/
def bootstrapReturns (returns : List ℚ) (period_days : ℕ) (rng : ℕ → ℕ) : List ℚ :=
  (List.range 1000).map fun t =>
    prodQ ((List.range period_days).map fun j =>
      1 + returns.getD (rng (t * period_days + j) % returns.length) 0) - 1

/-- `calculate_var`: parametric and resampled-historical VaR over one year
of closes.  `sqrtF` models `np.sqrt`, `ppf` models `stats.norm.ppf`, and
`rng` is the ambient numpy random stream (the Python signature takes only
`(symbol, confidence_level, period_days)`; it exposes no seed). -/
def calculate_var (sqrtF ppf : ℚ → ℚ) (closes : List ℚ)
    (confidence_level : ℚ) (period_days : ℕ) (rng : ℕ → ℕ) :
    Except FailPayload VarRecord :=
  if closes.length < 60 then
    .error { error := "Insufficient data for VaR calculation (need 60+ days, got " ++
               toString closes.length ++ ")",
             message := some "Cannot calculate risk metrics without sufficient history" }
  else
    let returns := pctChange closes
    if returns.length < 50 then
      .error { error := "Insufficient return history" }
    else
      let mean_return := meanQ returns
      let std_return := sqrtF (svarQ returns)
      let z_score := ppf (1 - confidence_level)
      let period_mean := mean_return * (period_days : ℚ)
      let period_std := std_return * sqrtF (period_days : ℚ)
      let parametric_var := (period_mean + z_score * period_std) * 100
      let period_returns := bootstrapReturns returns period_days rng
      match npPercentile period_returns ((1 - confidence_level) * 100) with
      | none => .error { error := "VaR calculation error: percentile out of range" }
      | some p =>
        let historical_var := p * 100
        let avg_var := (parametric_var + historical_var) / 2
        let annual_volatility := std_return * sqrtF 252 * 100
        .ok { confidence_level := confidence_level
              period_days := period_days
              var_estimates := { parametric := parametric_var
                                 historical := historical_var
                                 average := avg_var }
              annual_volatility := annual_volatility
              risk_level :=
                if annual_volatility < 20 then "Low"
                else if annual_volatility < 35 then "Moderate"
                else if annual_volatility < 50 then "High"
                else "Very High" }

/-- Projection: the historical VaR of a successful run. -/
def varHistorical (e : Except FailPayload VarRecord) : Option ℚ :=
  match e with
  | .ok r => some r.var_estimates.historical
  | .error _ => none

/-- Projection: the parametric VaR of a successful run. -/
def varParametric (e : Except FailPayload VarRecord) : Option ℚ :=
  match e with
  | .ok r => some r.var_estimates.parametric
  | .error _ => none

/-- Decidable equality for results. -/
instance instDecEqExcept {ε α : Type} [DecidableEq ε] [DecidableEq α] :
    DecidableEq (Except ε α) := fun x y =>
  match x, y with
  | .ok a, .ok b =>
    if h : a = b then isTrue (by rw [h]) else isFalse (by intro he; cases he; exact h rfl)
  | .error a, .error b =>
    if h : a = b then isTrue (by rw [h]) else isFalse (by intro he; cases he; exact h rfl)
  | .ok _, .error _ => isFalse (by intro he; cases he)
  | .error _, .ok _ => isFalse (by intro he; cases he)

/-- Whether an `Except` result is a success. -/
def isOkE {ε α : Type} (e : Except ε α) : Bool :=
  match e with
  | .ok _ => true
  | .error _ => false

/-- Projection: the error payload of a failed run. -/
def errOfE {α : Type} (e : Except FailPayload α) : Option FailPayload :=
  match e with
  | .ok _ => none
  | .error f => some f

/-! ## `analyze_downside_metrics` (src/tools/risk_analysis.py) -/

/-- `pandas.Series.cumprod` seeded with an accumulator. -/
def cumprodQ (acc : ℚ) : List ℚ → List ℚ
  | [] => []
  | x :: xs => (acc * x) :: cumprodQ (acc * x) xs

def cummaxGo (acc : ℚ) : List ℚ → List ℚ
  | [] => []
  | x :: xs => max acc x :: cummaxGo (max acc x) xs

/-- `pandas.Series.cummax`. -/
def cummaxQ : List ℚ → List ℚ
  | [] => []
  | x :: xs => x :: cummaxGo x xs

/-- Success payload of `analyze_downside_metrics` (numeric core plus the
two interpretation strings; the drawdown date bookkeeping is
presentation-only and not modelled). -/
structure DownsideRecord where
  max_drawdown_percentage : ℚ
  current_drawdown : ℚ
  /-- float `NaN` (`none`) when there are fewer than two negative returns -/
  downside_deviation : Option ℚ
  /-- Python `None` when the downside deviation is not a positive number -/
  sortino_ratio : Option ℚ
  drawdown_tier : String
  sortino_tier : String
deriving DecidableEq

/-- `analyze_downside_metrics`: max drawdown, downside deviation and
Sortino ratio over two years of closes. -/
def analyze_downside_metrics (sqrtF : ℚ → ℚ) (closes : List ℚ) :
    Except FailPayload DownsideRecord :=
  if closes.length < 100 then
    .error { error := "Insufficient data for drawdown analysis (need 100+ days)" }
  else
    let returns := pctChange closes
    let cumulative := cumprodQ 1 (returns.map (1 + ·))
    let running_max := cummaxQ cumulative
    let drawdown := (cumulative.zip running_max).map fun x => (x.1 - x.2) / x.2
    let max_drawdown := (listMin drawdown).getD 0 * 100
    let negative_returns := returns.filter fun r => decide (r < 0)
    let downside_deviation :=
      (stdQ sqrtF negative_returns).map fun s => s * sqrtF 252 * 100
    let mean_return := meanQ returns * 252
    let risk_free_rate : ℚ := 7 / 100
    let excess_return := mean_return - risk_free_rate
    let sortino_ratio : Option ℚ :=
      match downside_deviation with
      | some d => if 0 < d then some (excess_return / (d / 100)) else none
      | none => none
    let current_price := (closes.getLast?).getD 0
    let all_time_high := (listMax closes).getD 0
    let current_drawdown := (current_price - all_time_high) / all_time_high * 100
    -- Python truthiness chain of the sortino interpretation:
    -- `sortino_ratio and sortino_ratio > t`
    let st := fun (t : ℚ) =>
      match sortino_ratio with
      | some s => if s = 0 then false else decide (t < s)
      | none => false
    .ok { max_drawdown_percentage := max_drawdown
          current_drawdown := current_drawdown
          downside_deviation := downside_deviation
          sortino_ratio := sortino_ratio
          drawdown_tier :=
            if -15 < max_drawdown then "Low drawdown risk"
            else if -30 < max_drawdown then "Moderate drawdown risk"
            else "High drawdown risk"
          sortino_tier :=
            if st 2 then "Excellent risk-adjusted returns"
            else if st 1 then "Good risk-adjusted returns"
            else if st 0 then "Poor risk-adjusted returns"
            else if truthy sortino_ratio then "Negative returns"
            else "N/A" }

/-- Projection: reported Sortino ratio of a successful run. -/
def sortinoOf (e : Except FailPayload DownsideRecord) : Option (Option ℚ) :=
  match e with
  | .ok r => some r.sortino_ratio
  | .error _ => none

/-- Projection: reported downside deviation of a successful run. -/
def ddevOf (e : Except FailPayload DownsideRecord) : Option (Option ℚ) :=
  match e with
  | .ok r => some r.downside_deviation
  | .error _ => none

/-! ## `assess_leverage_risk` (src/tools/risk_analysis.py) -/

/-- Success payload of `assess_leverage_risk`. -/
structure LeverageRecord where
  debt_to_equity : ℚ
  total_debt : Option ℚ
  total_equity : Option ℚ
  interest_coverage : Option ℚ
  leverage_level : String
  leverage_risk : String
  risk_score : ℚ
  coverage_status : String
  refinancing_risks : List String
  recommendation : String
deriving DecidableEq

/-- `assess_leverage_risk`: debt/equity based distress scoring.  Python
truthiness governs each guard, so a present-but-zero figure behaves like a
missing one. -/
def assess_leverage_risk (info : Info) : Except FailPayload LeverageRecord :=
  let total_debt := info.totalDebt
  let total_equity := info.totalStockholderEquity
  let interest_coverage := info.interestCoverage
  -- `if not debt_to_equity and total_debt and total_equity and total_equity > 0`
  let debt_to_equity : Option ℚ :=
    if !truthy info.debtToEquity && truthy total_debt && truthy total_equity &&
        decide (0 < total_equity.getD 0) then
      some (total_debt.getD 0 / total_equity.getD 0 * 100)
    else info.debtToEquity
  if !truthy debt_to_equity then
    .error { error := "Debt metrics not available",
             message := some "Cannot assess leverage without debt data" }
  else
    let dte := debt_to_equity.getD 0
    let leverage_level :=
      if dte < 50 then "Low"
      else if dte < 100 then "Moderate"
      else if dte < 200 then "High"
      else "Very High"
    let leverage_risk :=
      if dte < 50 then "Minimal"
      else if dte < 100 then "Manageable"
      else if dte < 200 then "Elevated"
      else "Significant distress risk"
    let coverage_status :=
      match interest_coverage with
      | some ic =>
        if ic = 0 then "Not available"
        else if 5 < ic then "Strong - can easily service debt"
        else if 5/2 < ic then "Adequate - comfortable margin"
        else if 1 < ic then "Weak - tight coverage"
        else "Critical - earnings below interest"
      | none => "Not available"
    let risk_score0 : ℚ := 1 +
      (if 200 < dte then 4 else if 100 < dte then 2 else if 50 < dte then 1 else 0)
    let risk_score1 : ℚ := risk_score0 +
      (match interest_coverage with
       | some ic =>
         if ic = 0 then 0
         else if ic < 1 then 4 else if ic < 5/2 then 2 else if ic < 5 then 1 else 0
       | none => 0)
    let risk_score := min 10 risk_score1
    let refinancing_risks :=
      (if 150 < dte then ["High leverage reduces financing flexibility"] else []) ++
      (if truthy interest_coverage && decide (interest_coverage.getD 0 < 2) then
        ["Tight interest coverage - vulnerable to rate hikes"] else []) ++
      (if !truthy interest_coverage then
        ["Interest coverage not available - unable to assess"] else [])
    .ok { debt_to_equity := dte
          total_debt := total_debt
          total_equity := total_equity
          interest_coverage := interest_coverage
          leverage_level := leverage_level
          leverage_risk := leverage_risk
          risk_score := risk_score
          coverage_status := coverage_status
          refinancing_risks := refinancing_risks
          recommendation :=
            if risk_score ≤ 3 then "Low leverage risk"
            else if risk_score ≤ 6 then "Monitor leverage"
            else "High leverage risk - caution advised" }

/-! ## `calculate_stop_loss_levels` (src/tools/risk_analysis.py) -/

/-- True-range series continuing from a previous close. -/
def trAux (prev : Bar) : List Bar → List ℚ
  | [] => []
  | b :: bs =>
    max (b.high - b.low) (max |b.high - prev.close| |b.low - prev.close|) ::
      trAux b bs

/-- Per-bar true range.  For the first bar `close.shift()` is `NaN`, so the
row maximum (numpy skips `NaN`) is just `high - low`. -/
def trList : List Bar → List ℚ
  | [] => []
  | b :: bs => (b.high - b.low) :: trAux b bs

/-- ATR(14): mean of the last 14 true ranges
(`true_range.rolling(window=14).mean().iloc[-1]`; the ≥ 50-bar guard means
at least 14 rows exist, so the rolling mean is defined). -/
def atrOf (bars : List Bar) : ℚ :=
  let trs := trList bars
  sumQ (trs.drop (trs.length - 14)) / 14

/-- Rolling low of the last `k` bars (`hist['Low'].iloc[-k:].min()`). -/
def recentLow (bars : List Bar) (k : ℕ) : Option ℚ :=
  let lows := bars.map Bar.low
  listMin (lows.drop (lows.length - k))

/-- `max([s for s in stops if s > 0])`: `none` models the `ValueError`
Python raises when no candidate is positive. -/
def pickStop (sl support : ℚ) : Option ℚ :=
  match ([sl, support].filter fun s => decide (0 < s)) with
  | [] => none
  | x :: xs => some (pyMax x xs)

/-- Success payload of `calculate_stop_loss_levels`. -/
structure StopLossRecord where
  current_price : ℚ
  atr : ℚ
  conservative_price : ℚ
  conservative_pct : ℚ
  moderate_price : ℚ
  moderate_pct : ℚ
  aggressive_price : ℚ
  aggressive_pct : ℚ
  low_3m : ℚ
  low_1m : ℚ
deriving DecidableEq

/-- `calculate_stop_loss_levels`: ATR- and support-based stop ladder over
six months of bars. -/
def calculate_stop_loss_levels (bars : List Bar) : Except FailPayload StopLossRecord :=
  if bars.length < 50 then
    .error { error := "Insufficient data for stop-loss calculation" }
  else
    let current_price := ((bars.map Bar.close).getLast?).getD 0
    let atr := atrOf bars
    let conservative_sl := current_price - 3 * atr
    let moderate_sl := current_price - 2 * atr
    let aggressive_sl := current_price - 3/2 * atr
    let recent_low_3m := (recentLow bars 63).getD 0
    let recent_low_1m := (recentLow bars 21).getD 0
    match pickStop conservative_sl recent_low_3m, pickStop moderate_sl recent_low_1m with
    | some final_conservative, some final_moderate =>
      .ok { current_price := current_price
            atr := atr
            conservative_price := final_conservative
            conservative_pct := (final_conservative - current_price) / current_price * 100
            moderate_price := final_moderate
            moderate_pct := (final_moderate - current_price) / current_price * 100
            aggressive_price := aggressive_sl
            aggressive_pct := (aggressive_sl - current_price) / current_price * 100
            low_3m := recent_low_3m
            low_1m := recent_low_1m }
    | _, _ =>
      .error { error := "Stop-loss calculation error: max() arg is an empty sequence" }

/-- Projections of a successful stop-loss run. -/
def slConservative (e : Except FailPayload StopLossRecord) : Option ℚ :=
  match e with
  | .ok r => some r.conservative_price
  | .error _ => none

def slModerate (e : Except FailPayload StopLossRecord) : Option ℚ :=
  match e with
  | .ok r => some r.moderate_price
  | .error _ => none

def slAggressive (e : Except FailPayload StopLossRecord) : Option ℚ :=
  match e with
  | .ok r => some r.aggressive_price
  | .error _ => none

def slCurrentPrice (e : Except FailPayload StopLossRecord) : Option ℚ :=
  match e with
  | .ok r => some r.current_price
  | .error _ => none

/-! ## `model_scenario_risks` (src/tools/risk_analysis.py) -/

/-- Success payload of `model_scenario_risks` (numeric core; the fixed
probability constants and prose rationale strings are payload constants).
`annual_volatility`-derived fields are `NaN` (`none`) when fewer than two
returns exist. -/
structure ScenarioRiskRecord where
  current_price : ℚ
  beta : ℚ
  annual_volatility : Option ℚ
  rate_hike_impact : ℚ
  commodity_impact : ℚ
  demand_impact : Option ℚ
  sector_impact : ℚ
  rate_hike_target : ℚ
  commodity_target : ℚ
  demand_target : Option ℚ
  sector_target : ℚ
  worst_case_price : ℚ
deriving DecidableEq

/-- `model_scenario_risks`: four deterministic shock scenarios with
beta/volatility-scaled impacts. -/
def model_scenario_risks (sqrtF : ℚ → ℚ) (info : Info) (closes : List ℚ) :
    Except FailPayload ScenarioRiskRecord :=
  if closes.length = 0 then
    .error { error := "No historical data available" }
  else
    let current_price := (closes.getLast?).getD 0
    -- `info.get('beta', 1.0) or 1.0`
    let beta := if truthy info.beta then info.beta.getD 0 else 1
    let returns := pctChange closes
    let annual_vol := (stdQ sqrtF returns).map (· * sqrtF 252)
    let rate_hike_impact := -10 * (beta / 1)
    let commodity_impact : ℚ := if 1 < beta then -8 else -5
    let demand_impact := annual_vol.map fun v => -15 * (1 + (v - 1/4))
    let sector_impact : ℚ := -12
    .ok { current_price := current_price
          beta := beta
          annual_volatility := annual_vol.map (· * 100)
          rate_hike_impact := rate_hike_impact
          commodity_impact := commodity_impact
          demand_impact := demand_impact
          sector_impact := sector_impact
          rate_hike_target := current_price * (1 + rate_hike_impact / 100)
          commodity_target := current_price * (1 + commodity_impact / 100)
          demand_target := demand_impact.map fun i => current_price * (1 + i / 100)
          sector_target := current_price * (1 + sector_impact / 100)
          worst_case_price := current_price * (1 + (-30 : ℚ) / 100) }

/-! ## `get_sector_valuation_multiples` (src/tools/valuation.py) -/

/-- One row of `peer_data`: the metrics read from a fetched snapshot. -/
structure PeerRow where
  symbol : String
  pe_ratio : Option ℚ
  forward_pe : Option ℚ
  pb_ratio : Option ℚ
  ev_ebitda : Option ℚ
  roe : Option ℚ
  profit_margin : Option ℚ
  market_cap : Option ℚ
deriving DecidableEq

/-- Build a `peer_data` row from a fetched snapshot. -/
def mkPeerRow (s : String) (i : Info) : PeerRow :=
  { symbol := s
    pe_ratio := i.trailingPE
    forward_pe := i.forwardPE
    pb_ratio := i.priceToBook
    ev_ebitda := i.enterpriseToEbitda
    roe := i.returnOnEquity
    profit_margin := i.profitMargins
    market_cap := i.marketCap }

/-- The six sector medians. -/
structure Medians where
  pe_ratio : Option ℚ
  forward_pe : Option ℚ
  pb_ratio : Option ℚ
  ev_ebitda : Option ℚ
  roe : Option ℚ
  profit_margin : Option ℚ
deriving DecidableEq

/-- The four percentile ranks. -/
structure Pcts where
  pe_ratio : Option ℚ
  pb_ratio : Option ℚ
  ev_ebitda : Option ℚ
  roe : Option ℚ
deriving DecidableEq

/-- `safe_median`: median over the values that are present (`None`/`NaN`
excluded); `None` when no value is present. -/
def safe_median (vs : List (Option ℚ)) : Option ℚ := medianQ (vs.filterMap id)

/-- `percentile_rank`: `None` when the subject value is missing or no peer
value is present; else the share of present peer values strictly below the
subject value, times 100. -/
def percentile_rank (value : Option ℚ) (peer_values : List (Option ℚ)) : Option ℚ :=
  match value with
  | none => none
  | some v =>
    match peer_values.filterMap id with
    | [] => none
    | x :: rest =>
      let valid := x :: rest
      some (((valid.countP fun w => decide (w < v)) : ℚ) / (valid.length : ℚ) * 100)

/-- Success payload of `get_sector_valuation_multiples`. -/
structure SectorRecord where
  symbol : String
  sector : String
  peer_count : ℕ
  peers : List String
  target_metrics : PeerRow
  sector_medians : Medians
  percentile_ranks : Pcts
  relative_valuation : String
  relative_quality : String
deriving DecidableEq

/-- `get_sector_valuation_multiples`: peer medians and subject percentile
ranks.  `fetch` models the per-symbol `yf.Ticker(...).info` round trip
(`none` = the fetch raised, and the symbol is skipped).  The two
interpretation strings compare an optional percentile with a number, so a
missing `pe_ratio`/`roe` percentile raises `TypeError` in Python
(`None > 60`), caught by the catch-all handler: modelled by the final two
`.error` branches. -/
def get_sector_valuation_multiples (fetch : String → Option Info) (symbol0 : String) :
    Except FailPayload SectorRecord :=
  let symbol := normSym symbol0
  match getSectorForSymbol symbol with
  | none =>
    .error { error := "Symbol " ++ symbol ++ " not found in predefined sectors",
             message := some "Cannot perform peer comparison without sector classification" }
  | some sector =>
    match getPeerStocks symbol 5 with
    | [] =>
      .error { error := "No peers found for " ++ symbol ++ " in sector " ++ sector,
               message := some "Insufficient peers for comparison" }
    | p :: ps =>
      let peers := p :: ps
      let all_symbols := symbol :: peers
      let peer_data := all_symbols.filterMap fun s =>
        (fetch (getNseSymbol s)).map (mkPeerRow s)
      if peer_data.length < 2 then
        .error { error := "Insufficient peer data retrieved",
                 message := some "Cannot calculate sector multiples" }
      else
        let peer_metrics := peer_data.filter fun r => r.symbol ≠ symbol
        let sector_medians : Medians :=
          { pe_ratio := safe_median (peer_metrics.map (·.pe_ratio))
            forward_pe := safe_median (peer_metrics.map (·.forward_pe))
            pb_ratio := safe_median (peer_metrics.map (·.pb_ratio))
            ev_ebitda := safe_median (peer_metrics.map (·.ev_ebitda))
            roe := safe_median (peer_metrics.map (·.roe))
            profit_margin := safe_median (peer_metrics.map (·.profit_margin)) }
        match peer_data.find? fun r => r.symbol = symbol with
        | none => .error { error := "Could not retrieve data for " ++ symbol }
        | some target_stock =>
          let percentiles : Pcts :=
            { pe_ratio := percentile_rank target_stock.pe_ratio (peer_metrics.map (·.pe_ratio))
              pb_ratio := percentile_rank target_stock.pb_ratio (peer_metrics.map (·.pb_ratio))
              ev_ebitda := percentile_rank target_stock.ev_ebitda (peer_metrics.map (·.ev_ebitda))
              roe := percentile_rank target_stock.roe (peer_metrics.map (·.roe)) }
          match percentiles.pe_ratio with
          | none =>
            .error { error := "Sector valuation error: TypeError comparing None",
                     message := some "Cannot calculate sector multiples" }
          | some pe_pct =>
            match percentiles.roe with
            | none =>
              .error { error := "Sector valuation error: TypeError comparing None",
                       message := some "Cannot calculate sector multiples" }
            | some roe_pct =>
              .ok { symbol := symbol
                    sector := sector
                    peer_count := peer_metrics.length
                    peers := peer_metrics.map (·.symbol)
                    target_metrics := target_stock
                    sector_medians := sector_medians
                    percentile_ranks := percentiles
                    relative_valuation :=
                      if 60 < pe_pct then "Premium to sector"
                      else if pe_pct < 40 then "Discount to sector"
                      else "In-line with sector"
                    relative_quality :=
                      if 60 < roe_pct then "Above average quality"
                      else if roe_pct < 40 then "Below average quality"
                      else "Average quality" }

/-! ## `calculate_relative_valuation` (src/tools/valuation.py) -/

/-- The `fair_values` list: one `(method, value)` entry per methodology
whose inputs are present (Python truthiness) and whose per-share driver is
positive. -/
def fairValues (info : Info) (m : Medians) : List (String × ℚ) :=
  (if truthy info.trailingEps && truthy m.pe_ratio &&
      decide (0 < info.trailingEps.getD 0) then
    [("PE-based", info.trailingEps.getD 0 * m.pe_ratio.getD 0)]
  else []) ++
  (if truthy info.bookValue && truthy m.pb_ratio &&
      decide (0 < info.bookValue.getD 0) then
    [("PB-based", info.bookValue.getD 0 * m.pb_ratio.getD 0)]
  else []) ++
  (if truthy info.forwardEps && truthy m.forward_pe &&
      decide (0 < info.forwardEps.getD 0) then
    [("Forward PE-based", info.forwardEps.getD 0 * m.forward_pe.getD 0)]
  else [])

/-- Success payload of `calculate_relative_valuation`. -/
structure RelValRecord where
  current_price : ℚ
  fv_min : ℚ
  fv_average : ℚ
  fv_max : ℚ
  valuation_methods : List (String × ℚ)
  to_min : ℚ
  to_average : ℚ
  to_max : ℚ
  valuation_verdict : String
deriving DecidableEq

/-- `calculate_relative_valuation`: peer-median multiples applied to the
subject's own per-share drivers.  The subject snapshot fetch and the nested
`get_sector_valuation_multiples` call both use `fetch`. -/
def calculate_relative_valuation (fetch : String → Option Info) (symbol0 : String) :
    Except FailPayload RelValRecord :=
  let symbol := normSym symbol0
  match fetch (getNseSymbol symbol) with
  | none => .error { error := "Valuation calculation error: info fetch failed" }
  | some info =>
    -- `info.get('currentPrice') or info.get('regularMarketPrice')`
    let current_price :=
      if truthy info.currentPrice then info.currentPrice else info.regularMarketPrice
    if !truthy current_price then
      .error { error := "Current price not available" }
    else
      match get_sector_valuation_multiples fetch symbol with
      | .error _ =>
        .error { error := "Cannot calculate valuation without sector comparison" }
      | .ok sector_data =>
        let cp := current_price.getD 0
        match fairValues info sector_data.sector_medians with
        | [] => .error { error := "Insufficient data for valuation calculation" }
        | fv :: fvs =>
          let fair_values := fv :: fvs
          let values := fair_values.map (·.2)
          let avg_fair_value := meanQ values
          let min_fair_value := pyMin fv.2 (fvs.map (·.2))
          let max_fair_value := pyMax fv.2 (fvs.map (·.2))
          let upside_pct := (max_fair_value - cp) / cp * 100
          let downside_pct := (min_fair_value - cp) / cp * 100
          let avg_upside_pct := (avg_fair_value - cp) / cp * 100
          .ok { current_price := cp
                fv_min := min_fair_value
                fv_average := avg_fair_value
                fv_max := max_fair_value
                valuation_methods := fair_values
                to_min := downside_pct
                to_average := avg_upside_pct
                to_max := upside_pct
                valuation_verdict :=
                  if 15 < avg_upside_pct then "Undervalued"
                  else if avg_upside_pct < -15 then "Overvalued"
                  else "Fairly valued" }

/-! ## `build_scenario_valuations` (src/tools/valuation.py) -/

/-- One scenario output row. -/
structure ScenOut where
  earnings_growth : ℚ
  pe_multiple_change : ℚ
  probability : ℚ
  future_eps : ℚ
  future_pe : ℚ
  target_price : ℚ
  upside_pct : ℚ
deriving DecidableEq

/-- Success payload of `build_scenario_valuations`. -/
structure ScenValRecord where
  current_price : ℚ
  current_pe : ℚ
  current_eps : ℚ
  bull : ScenOut
  base : ScenOut
  bear : ScenOut
  risk_reward : Option ℚ
  recommendation : String
deriving DecidableEq

/-- Evaluate one scenario from its fixed assumptions. -/
def scenOut (current_price current_eps current_pe growth mult prob : ℚ) : ScenOut :=
  let future_eps := current_eps * (1 + growth)
  let future_pe := current_pe * mult
  let target_price := future_eps * future_pe
  { earnings_growth := growth
    pe_multiple_change := mult
    probability := prob
    future_eps := future_eps
    future_pe := future_pe
    target_price := target_price
    upside_pct := (target_price - current_price) / current_price * 100 }

/-- `build_scenario_valuations`: bull/base/bear target prices from fixed
assumption sets.  (The body also computes a historical volatility that no
output field uses; it is omitted.)  `if not all([...])` requires price, PE
and EPS to all be truthy. -/
def build_scenario_valuations (info : Info) : Except FailPayload ScenValRecord :=
  let current_price :=
    if truthy info.currentPrice then info.currentPrice else info.regularMarketPrice
  let current_pe := info.trailingPE
  let current_eps := info.trailingEps
  if !(truthy current_price && truthy current_pe && truthy current_eps) then
    .error { error := "Insufficient data for scenario modeling",
             message := some "Need current price, PE, and EPS for scenarios" }
  else
    let cp := current_price.getD 0
    let pe := current_pe.getD 0
    let eps := current_eps.getD 0
    let bull := scenOut cp eps pe (20/100) (11/10) (1/4)
    let base := scenOut cp eps pe (5/100) 1 (1/2)
    let bear := scenOut cp eps pe (-(15/100)) (9/10) (1/4)
    let bull_upside := bull.upside_pct
    let bear_downside := |bear.upside_pct|
    let risk_reward : Option ℚ :=
      if 0 < bear_downside then some (bull_upside / bear_downside) else none
    -- truthiness chain: `risk_reward and risk_reward > 2` etc.
    let rr := fun (t : ℚ) =>
      match risk_reward with
      | some r => if r = 0 then false else decide (t < r)
      | none => false
    .ok { current_price := cp
          current_pe := pe
          current_eps := eps
          bull := bull
          base := base
          bear := bear
          risk_reward := risk_reward
          recommendation :=
            if rr 2 then "Attractive"
            else if rr 1 then "Neutral"
            else if truthy risk_reward then "Unfavorable"
            else "Insufficient data" }

/-! ## `identify_multiple_drivers` (src/tools/valuation.py) -/

/-- Success payload of `identify_multiple_drivers` (driver lists carry the
`factor` strings; the `impact`/`details` strings are presentation-only). -/
structure DriversRecord where
  expansion_drivers : List String
  compression_risks : List String
  positive_count : ℕ
  negative_count : ℕ
  multiple_bias : String
  roe_percentile : Option ℚ
  pe_percentile : Option ℚ
  margin_vs_sector : Option ℚ
deriving DecidableEq

/-- `identify_multiple_drivers`: quality-percentile based expansion and
compression drivers, over the sector comparison result. -/
def identify_multiple_drivers (fetch : String → Option Info) (symbol0 : String) :
    Except FailPayload DriversRecord :=
  match get_sector_valuation_multiples fetch symbol0 with
  | .error _ => .error { error := "Cannot analyze without sector comparison" }
  | .ok sd =>
    let roe_pct := sd.percentile_ranks.roe
    let pe_pct := sd.percentile_ranks.pe_ratio
    let target_margin := sd.target_metrics.profit_margin
    let sector_margin := sd.sector_medians.profit_margin
    let expansion_drivers :=
      (if truthy roe_pct && decide (60 < roe_pct.getD 0) then
        ["Superior ROE vs peers"] else []) ++
      (if truthy target_margin && truthy sector_margin &&
          decide (sector_margin.getD 0 * (11/10) < target_margin.getD 0) then
        ["Higher profit margins"] else [])
    let compression_risks :=
      (if truthy roe_pct && decide (roe_pct.getD 0 < 40) then
        ["Below-average ROE"] else []) ++
      (if truthy pe_pct && truthy roe_pct && decide (70 < pe_pct.getD 0) &&
          decide (roe_pct.getD 0 < 50) then
        ["Valuation premium not justified by quality"] else [])
    let net_bias : ℤ := (expansion_drivers.length : ℤ) - (compression_risks.length : ℤ)
    .ok { expansion_drivers := expansion_drivers
          compression_risks := compression_risks
          positive_count := expansion_drivers.length
          negative_count := compression_risks.length
          multiple_bias :=
            if 0 < net_bias then "Expansion likely"
            else if net_bias < 0 then "Compression risk"
            else "Stable"
          roe_percentile := roe_pct
          pe_percentile := pe_pct
          margin_vs_sector :=
            if truthy target_margin && truthy sector_margin then
              some ((target_margin.getD 0 / sector_margin.getD 0 - 1) * 100)
            else none }

/-! ## Serialization of each component through `_safe_json_dumps` -/

/-- Serialize-and-sanitize, as `_safe_json_dumps` does for every payload:
the failure payload for a raised/guarded failure, the success dict
otherwise. -/
def emitE {α : Type} (toJ : α → JValue) (e : Except FailPayload α) : JValue :=
  sanitizeJ (match e with
    | .error f => failJson f
    | .ok r => toJ r)

def varJson (r : VarRecord) : JValue :=
  .obj [("confidence_level", jq r.confidence_level),
        ("period_days", jq (r.period_days : ℚ)),
        ("var_estimates", .obj
          [("parametric", jq r.var_estimates.parametric),
           ("historical", jq r.var_estimates.historical),
           ("average", jq r.var_estimates.average)]),
        ("annual_volatility", jq r.annual_volatility),
        ("risk_level", .str r.risk_level)]

def downsideJson (r : DownsideRecord) : JValue :=
  .obj [("max_drawdown", .obj [("percentage", jq r.max_drawdown_percentage)]),
        ("current_drawdown", jq r.current_drawdown),
        ("downside_deviation", jnan r.downside_deviation),
        ("sortino_ratio", jopt r.sortino_ratio),
        ("interpretation", .obj
          [("max_drawdown", .str r.drawdown_tier),
           ("sortino", .str r.sortino_tier)])]

def leverageJson (r : LeverageRecord) : JValue :=
  .obj [("debt_to_equity", jq r.debt_to_equity),
        ("total_debt", jopt r.total_debt),
        ("total_equity", jopt r.total_equity),
        ("interest_coverage", jopt r.interest_coverage),
        ("leverage_assessment", .obj
          [("level", .str r.leverage_level),
           ("risk", .str r.leverage_risk),
           ("risk_score", jq r.risk_score)]),
        ("interest_coverage_status", .str r.coverage_status),
        ("refinancing_risks", .arr (r.refinancing_risks.map .str)),
        ("recommendation", .str r.recommendation)]

def stopLossJson (r : StopLossRecord) : JValue :=
  .obj [("current_price", jq r.current_price),
        ("atr", jq r.atr),
        ("stop_loss_levels", .obj
          [("conservative", .obj [("price", jq r.conservative_price), ("pct_below", jq r.conservative_pct)]),
           ("moderate", .obj [("price", jq r.moderate_price), ("pct_below", jq r.moderate_pct)]),
           ("aggressive", .obj [("price", jq r.aggressive_price), ("pct_below", jq r.aggressive_pct)])]),
        ("support_levels", .obj
          [("3_month_low", jq r.low_3m), ("1_month_low", jq r.low_1m)])]

def scenarioRiskJson (r : ScenarioRiskRecord) : JValue :=
  .obj [("current_price", jq r.current_price),
        ("beta", jq r.beta),
        ("annual_volatility", jnan r.annual_volatility),
        ("scenarios", .obj
          [("rate_hike", .obj [("estimated_impact_pct", jq r.rate_hike_impact), ("target_price", jq r.rate_hike_target)]),
           ("commodity_shock", .obj [("estimated_impact_pct", jq r.commodity_impact), ("target_price", jq r.commodity_target)]),
           ("demand_shock", .obj [("estimated_impact_pct", jnan r.demand_impact), ("target_price", jnan r.demand_target)]),
           ("sector_downturn", .obj [("estimated_impact_pct", jq r.sector_impact), ("target_price", jq r.sector_target)])]),
        ("worst_case", .obj [("target_price", jq r.worst_case_price)])]

def peerRowJson (p : PeerRow) : JValue :=
  .obj [("symbol", .str p.symbol),
        ("pe_ratio", jopt p.pe_ratio),
        ("forward_pe", jopt p.forward_pe),
        ("pb_ratio", jopt p.pb_ratio),
        ("ev_ebitda", jopt p.ev_ebitda),
        ("roe", jopt p.roe),
        ("profit_margin", jopt p.profit_margin),
        ("market_cap", jopt p.market_cap)]

def sectorJson (r : SectorRecord) : JValue :=
  .obj [("symbol", .str r.symbol),
        ("sector", .str r.sector),
        ("peer_count", jq (r.peer_count : ℚ)),
        ("peers", .arr (r.peers.map .str)),
        ("target_metrics", peerRowJson r.target_metrics),
        ("sector_medians", .obj
          [("pe_ratio", jopt r.sector_medians.pe_ratio),
           ("forward_pe", jopt r.sector_medians.forward_pe),
           ("pb_ratio", jopt r.sector_medians.pb_ratio),
           ("ev_ebitda", jopt r.sector_medians.ev_ebitda),
           ("roe", jopt r.sector_medians.roe),
           ("profit_margin", jopt r.sector_medians.profit_margin)]),
        ("percentile_ranks", .obj
          [("pe_ratio", jopt r.percentile_ranks.pe_ratio),
           ("pb_ratio", jopt r.percentile_ranks.pb_ratio),
           ("ev_ebitda", jopt r.percentile_ranks.ev_ebitda),
           ("roe", jopt r.percentile_ranks.roe)]),
        ("interpretation", .obj
          [("relative_valuation", .str r.relative_valuation),
           ("relative_quality", .str r.relative_quality)])]

def relValJson (r : RelValRecord) : JValue :=
  .obj [("current_price", jq r.current_price),
        ("fair_value_range", .obj
          [("min", jq r.fv_min), ("average", jq r.fv_average), ("max", jq r.fv_max)]),
        ("valuation_methods", .arr (r.valuation_methods.map fun m =>
          .obj [("method", .str m.1), ("fair_value", jq m.2)])),
        ("upside_downside", .obj
          [("to_min", jq r.to_min), ("to_average", jq r.to_average), ("to_max", jq r.to_max)]),
        ("valuation_verdict", .str r.valuation_verdict)]

def scenOutJson (s : ScenOut) : JValue :=
  .obj [("assumptions", .obj
          [("earnings_growth", jq s.earnings_growth),
           ("pe_multiple_change", jq s.pe_multiple_change),
           ("probability", jq s.probability)]),
        ("future_eps", jq s.future_eps),
        ("future_pe", jq s.future_pe),
        ("target_price", jq s.target_price),
        ("upside_pct", jq s.upside_pct)]

def scenValJson (r : ScenValRecord) : JValue :=
  .obj [("current_price", jq r.current_price),
        ("current_pe", jq r.current_pe),
        ("current_eps", jq r.current_eps),
        ("scenarios", .obj
          [("bull", scenOutJson r.bull), ("base", scenOutJson r.base), ("bear", scenOutJson r.bear)]),
        ("risk_reward_ratio", jopt r.risk_reward),
        ("recommendation", .str r.recommendation)]

def driversJson (r : DriversRecord) : JValue :=
  .obj [("expansion_drivers", .arr (r.expansion_drivers.map fun s => .obj [("factor", .str s)])),
        ("compression_risks", .arr (r.compression_risks.map fun s => .obj [("factor", .str s)])),
        ("driver_count", .obj
          [("positive", jq (r.positive_count : ℚ)), ("negative", jq (r.negative_count : ℚ))]),
        ("multiple_bias", .str r.multiple_bias),
        ("quality_metrics", .obj
          [("roe_percentile", jopt r.roe_percentile),
           ("pe_percentile", jopt r.pe_percentile),
           ("margin_vs_sector", jopt r.margin_vs_sector)])]

/-! ## The sanitizer removes every non-finite float -/

mutual

theorem noBad_sanitizeJ (v : JValue) : noBadJ (sanitizeJ v) = true := by
  cases v with
  | null => rfl
  | bool b => rfl
  | num x => cases x <;> rfl
  | str s => rfl
  | arr xs => simpa [sanitizeJ, noBadJ] using noBad_sanitizeList xs
  | obj fs => simpa [sanitizeJ, noBadJ] using noBad_sanitizeFields fs

theorem noBad_sanitizeList (xs : List JValue) : noBadList (sanitizeList xs) = true := by
  cases xs with
  | nil => rfl
  | cons v vs =>
    simp [sanitizeList, noBadList, noBad_sanitizeJ v, noBad_sanitizeList vs]

theorem noBad_sanitizeFields (fs : List (String × JValue)) :
    noBadFields (sanitizeFields fs) = true := by
  cases fs with
  | nil => rfl
  | cons kv fws =>
    simp [sanitizeFields, noBadFields, noBad_sanitizeJ kv.2, noBad_sanitizeFields fws]

end

/-- The failure payload contains no floats, so sanitization keeps it. -/
theorem sanitize_failJson (f : FailPayload) : sanitizeJ (failJson f) = failJson f := by
  cases h : f.message <;>
    simp [failJson, h, sanitizeJ, sanitizeFields]

/-- The shape of the uniform failure payload. -/
def uniformFailure (v : JValue) : Prop :=
  (∃ s, getFieldJ v "error" = some (.str s)) ∧
    getFieldJ v "DATA_UNAVAILABLE" = some (.bool true)

theorem uniformFailure_failJson (f : FailPayload) : uniformFailure (failJson f) := by
  refine ⟨⟨f.error, ?_⟩, ?_⟩ <;> cases f.message <;> rfl

theorem emitE_noBad {α : Type} (toJ : α → JValue) (e : Except FailPayload α) :
    noBadJ (emitE toJ e) = true := noBad_sanitizeJ _

theorem emitE_fail {α : Type} (toJ : α → JValue) (e : Except FailPayload α)
    (f : FailPayload) (h : e = .error f) : uniformFailure (emitE toJ e) := by
  subst h
  show uniformFailure (sanitizeJ (failJson f))
  rw [sanitize_failJson]
  exact uniformFailure_failJson f

/-! ## Supporting lemmas about the list utilities -/

theorem foldl_add_eq (l : List ℚ) : ∀ a : ℚ, l.foldl (· + ·) a = a + l.sum := by
  induction l with
  | nil => intro a; simp
  | cons x xs ih => intro a; simp [ih]; ring

theorem sumQ_eq_sum (l : List ℚ) : sumQ l = l.sum := by
  simp [sumQ, foldl_add_eq]

theorem sumQ_nonneg (l : List ℚ) (h : ∀ x ∈ l, 0 ≤ x) : 0 ≤ sumQ l := by
  rw [sumQ_eq_sum]; exact List.sum_nonneg h

theorem pyMin_le_head (x : ℚ) (xs : List ℚ) : pyMin x xs ≤ x := by
  induction xs generalizing x with
  | nil => simp [pyMin]
  | cons y ys ih =>
    calc pyMin x (y :: ys) = pyMin (min x y) ys := rfl
    _ ≤ min x y := ih _
    _ ≤ x := min_le_left _ _

theorem pyMin_le_mem (x : ℚ) (xs : List ℚ) (a : ℚ) (ha : a ∈ xs) : pyMin x xs ≤ a := by
  induction xs generalizing x with
  | nil => cases ha
  | cons y ys ih =>
    rcases List.mem_cons.mp ha with h | h
    · subst h
      calc pyMin x (a :: ys) = pyMin (min x a) ys := rfl
      _ ≤ min x a := pyMin_le_head _ _
      _ ≤ a := min_le_right _ _
    · exact ih _ h

theorem pyMin_mem (x : ℚ) (xs : List ℚ) : pyMin x xs ∈ x :: xs := by
  induction xs generalizing x with
  | nil => simp [pyMin]
  | cons y ys ih =>
    have h := ih (min x y)
    rcases List.mem_cons.mp h with h1 | h1
    · rcases le_total x y with hxy | hxy
      · rw [show pyMin x (y :: ys) = pyMin (min x y) ys from rfl, h1, min_eq_left hxy]
        exact List.mem_cons_self _ _
      · rw [show pyMin x (y :: ys) = pyMin (min x y) ys from rfl, h1, min_eq_right hxy]
        exact List.mem_cons_of_mem _ (List.mem_cons_self _ _)
    · exact List.mem_cons_of_mem _ (List.mem_cons_of_mem _ h1)

theorem le_pyMax_head (x : ℚ) (xs : List ℚ) : x ≤ pyMax x xs := by
  induction xs generalizing x with
  | nil => simp [pyMax]
  | cons y ys ih =>
    calc x ≤ max x y := le_max_left _ _
    _ ≤ pyMax (max x y) ys := ih _
    _ = pyMax x (y :: ys) := rfl

theorem le_pyMax_mem (x : ℚ) (xs : List ℚ) (a : ℚ) (ha : a ∈ xs) : a ≤ pyMax x xs := by
  induction xs generalizing x with
  | nil => cases ha
  | cons y ys ih =>
    rcases List.mem_cons.mp ha with h | h
    · subst h
      calc a ≤ max x a := le_max_right _ _
      _ ≤ pyMax (max x a) ys := le_pyMax_head _ _
      _ = pyMax x (a :: ys) := rfl
    · exact ih _ h

theorem listMin_le_mem (l : List ℚ) (m a : ℚ) (hm : listMin l = some m) (ha : a ∈ l) :
    m ≤ a := by
  cases l with
  | nil => cases ha
  | cons x xs =>
    have hmx : pyMin x xs = m := by simpa [listMin] using hm
    subst hmx
    rcases List.mem_cons.mp ha with h | h
    · subst h; exact pyMin_le_head _ _
    · exact pyMin_le_mem _ _ _ h

theorem listMin_mem (l : List ℚ) (m : ℚ) (hm : listMin l = some m) : m ∈ l := by
  cases l with
  | nil => cases hm
  | cons x xs =>
    have hmx : pyMin x xs = m := by simpa [listMin] using hm
    subst hmx
    exact pyMin_mem _ _

theorem mem_drop_of_le {α : Type} {l : List α} {a : α} {m k : ℕ}
    (h : a ∈ l.drop m) (hk : k ≤ m) : a ∈ l.drop k := by
  have : l.drop m = (l.drop k).drop (m - k) := by
    rw [List.drop_drop]
    congr 1
    omega
  rw [this] at h
  exact List.drop_subset _ _ h

theorem getLast?_mem_drop {α : Type} (l : List α) (m : ℕ) (a : α)
    (h : l.getLast? = some a) (hm : m < l.length) : a ∈ l.drop m := by
  induction l generalizing m with
  | nil => cases h
  | cons x xs ih =>
    cases m with
    | zero =>
      obtain ⟨hne, rfl⟩ := List.mem_getLast?_eq_getLast (Option.mem_def.mpr h)
      simp only [List.drop_zero]
      exact List.getLast_mem hne
    | succ m =>
      have hxs : xs.length > m := by simpa using hm
      cases xs with
      | nil => simp at hxs
      | cons y ys =>
        have h2 : (y :: ys).getLast? = some a := by
          simpa [List.getLast?_cons_cons] using h
        simp only [List.drop_succ_cons] at *
        exact ih m h2 hxs

/-! ## Stop-loss calculator: supporting lemmas -/

theorem pickStop_eq (sl support : ℚ) (h : 0 < support) :
    pickStop sl support = some (max sl support) := by
  rcases lt_or_le 0 sl with hsl | hsl
  · simp [pickStop, pyMax, hsl, h]
  · have : ¬ (0 < sl) := not_lt.mpr hsl
    simp [pickStop, pyMax, this, h, max_eq_right (le_of_lt (lt_of_le_of_lt hsl h))]

theorem trAux_nonneg (prev : Bar) (bars : List Bar) :
    ∀ t ∈ trAux prev bars, 0 ≤ t := by
  induction bars generalizing prev with
  | nil => intro t ht; cases ht
  | cons b bs ih =>
    intro t ht
    rcases List.mem_cons.mp ht with h | h
    · subst h
      have : (0:ℚ) ≤ |b.high - prev.close| := abs_nonneg _
      have h2 : |b.high - prev.close| ≤ max (b.high - b.low) (max |b.high - prev.close| |b.low - prev.close|) :=
        le_max_of_le_right (le_max_left _ _)
      linarith
    · exact ih b t h

theorem trList_nonneg (bars : List Bar) (hv : ∀ b ∈ bars, b.low ≤ b.high) :
    ∀ t ∈ trList bars, 0 ≤ t := by
  cases bars with
  | nil => intro t ht; cases ht
  | cons b bs =>
    intro t ht
    rcases List.mem_cons.mp ht with h | h
    · subst h
      have := hv b (List.mem_cons_self _ _)
      linarith
    · exact trAux_nonneg b bs t h

theorem atrOf_nonneg (bars : List Bar) (hv : ∀ b ∈ bars, b.low ≤ b.high) :
    0 ≤ atrOf bars := by
  have hnn : ∀ t ∈ (trList bars).drop ((trList bars).length - 14), 0 ≤ t := by
    intro t ht
    exact trList_nonneg bars hv t (List.drop_subset _ _ ht)
  have := sumQ_nonneg _ hnn
  unfold atrOf
  positivity

theorem recentLow_isSome (bars : List Bar) (k : ℕ) (hk : 0 < k) (hb : bars ≠ []) :
    ∃ m, recentLow bars k = some m := by
  have hlen : 0 < (bars.map Bar.low).length := by
    simpa using List.length_pos.mpr hb
  have hpos : 0 < ((bars.map Bar.low).drop ((bars.map Bar.low).length - k)).length := by
    rw [List.length_drop]
    omega
  simp only [recentLow]
  cases hd : (bars.map Bar.low).drop ((bars.map Bar.low).length - k) with
  | nil => rw [hd] at hpos; simp at hpos
  | cons x xs => exact ⟨pyMin x xs, rfl⟩

theorem recentLow_pos (bars : List Bar) (k : ℕ) (m : ℚ)
    (hp : ∀ b ∈ bars, 0 < b.low) (hm : recentLow bars k = some m) : 0 < m := by
  have hmem := listMin_mem _ _ hm
  have hmem2 : m ∈ bars.map Bar.low := List.drop_subset _ _ hmem
  obtain ⟨b, hb, rfl⟩ := List.mem_map.mp hmem2
  exact hp b hb

theorem recentLow_le_last (bars : List Bar) (k : ℕ) (m : ℚ) (b : Bar)
    (hk : 0 < k) (hlast : bars.getLast? = some b)
    (hm : recentLow bars k = some m) : m ≤ b.low := by
  have hne : bars ≠ [] := by
    intro h; rw [h] at hlast; cases hlast
  have hlen : 0 < bars.length := List.length_pos.mpr hne
  have hmap : (bars.map Bar.low).getLast? = some b.low := by
    rw [List.getLast?_map, hlast]; rfl
  have hd : b.low ∈ (bars.map Bar.low).drop ((bars.map Bar.low).length - k) := by
    apply getLast?_mem_drop _ _ _ hmap
    simp
    omega
  exact listMin_le_mem _ _ _ hm hd

theorem recentLow_mono (bars : List Bar) (m63 m21 : ℚ)
    (h63 : recentLow bars 63 = some m63) (h21 : recentLow bars 21 = some m21) :
    m63 ≤ m21 := by
  simp only [recentLow] at h63 h21
  have hmem := listMin_mem _ _ h21
  have hsub : m21 ∈ (bars.map Bar.low).drop ((bars.map Bar.low).length - 63) := by
    refine mem_drop_of_le hmem ?_
    omega
  exact listMin_le_mem _ _ _ h63 hsub

/-- With enough bars and positive support lows, the stop-loss calculator
succeeds, and each floored tier equals the larger of its ATR-derived level
and its support floor. -/
theorem stop_loss_shape (bars : List Bar) (h50 : ¬ bars.length < 50)
    (h3 : 0 < (recentLow bars 63).getD 0) (h1 : 0 < (recentLow bars 21).getD 0) :
    calculate_stop_loss_levels bars = .ok
      { current_price := ((bars.map Bar.close).getLast?).getD 0
        atr := atrOf bars
        conservative_price := max (((bars.map Bar.close).getLast?).getD 0 - 3 * atrOf bars)
          ((recentLow bars 63).getD 0)
        conservative_pct := (max (((bars.map Bar.close).getLast?).getD 0 - 3 * atrOf bars)
            ((recentLow bars 63).getD 0) - ((bars.map Bar.close).getLast?).getD 0) /
          ((bars.map Bar.close).getLast?).getD 0 * 100
        moderate_price := max (((bars.map Bar.close).getLast?).getD 0 - 2 * atrOf bars)
          ((recentLow bars 21).getD 0)
        moderate_pct := (max (((bars.map Bar.close).getLast?).getD 0 - 2 * atrOf bars)
            ((recentLow bars 21).getD 0) - ((bars.map Bar.close).getLast?).getD 0) /
          ((bars.map Bar.close).getLast?).getD 0 * 100
        aggressive_price := ((bars.map Bar.close).getLast?).getD 0 - 3/2 * atrOf bars
        aggressive_pct := (((bars.map Bar.close).getLast?).getD 0 - 3/2 * atrOf bars -
            ((bars.map Bar.close).getLast?).getD 0) /
          ((bars.map Bar.close).getLast?).getD 0 * 100
        low_3m := (recentLow bars 63).getD 0
        low_1m := (recentLow bars 21).getD 0 } := by
  simp only [calculate_stop_loss_levels, if_neg h50]
  rw [pickStop_eq _ _ h3, pickStop_eq _ _ h1]

/-- C1 (amended): for every successful stop-loss calculation on valid bars
(positive lows, low ≤ close ≤ high), the conservative stop price is less
than or equal to the moderate stop price (the moderate tier, floored by the
narrower one-month support window, is at least as close to the current
price), all three stop levels are at most the current price, the
conservative and moderate levels each equal the HIGHER of their ATR-derived
level (current price minus 3x resp. 2x ATR(14)) and their support floor
(3-month resp. 1-month rolling low), and the 3-month low never exceeds the
1-month low.  [The frozen claim asserts conservative ≥ moderate with
conservative closest to the current price; the code yields the opposite
order, see the counterexample.] -/
theorem c1_stop_loss_ordering (bars : List Bar)
    (hv : ∀ b ∈ bars, 0 < b.low ∧ b.low ≤ b.close ∧ b.close ≤ b.high)
    (hlen : 50 ≤ bars.length) :
    ∃ r, calculate_stop_loss_levels bars = .ok r ∧
      r.conservative_price ≤ r.moderate_price ∧
      r.conservative_price ≤ r.current_price ∧
      r.moderate_price ≤ r.current_price ∧
      r.aggressive_price ≤ r.current_price ∧
      r.conservative_price = max (r.current_price - 3 * atrOf bars) r.low_3m ∧
      r.moderate_price = max (r.current_price - 2 * atrOf bars) r.low_1m ∧
      r.low_3m ≤ r.low_1m := by
  have h50 : ¬ bars.length < 50 := by omega
  have hne : bars ≠ [] := by
    intro h
    rw [h] at hlen
    simp at hlen
  have hlow : ∀ b ∈ bars, 0 < b.low := fun b hb => (hv b hb).1
  have hlh : ∀ b ∈ bars, b.low ≤ b.high := fun b hb =>
    le_trans (hv b hb).2.1 (hv b hb).2.2
  have hb : bars.getLast? = some (bars.getLast hne) := List.getLast?_eq_getLast bars hne
  have hbmem : bars.getLast hne ∈ bars := List.getLast_mem hne
  obtain ⟨m63, h63⟩ := recentLow_isSome bars 63 (by omega) hne
  obtain ⟨m21, h21⟩ := recentLow_isSome bars 21 (by omega) hne
  have pos63 : 0 < m63 := recentLow_pos bars 63 m63 hlow h63
  have pos21 : 0 < m21 := recentLow_pos bars 21 m21 hlow h21
  have hcp : ((bars.map Bar.close).getLast?).getD 0 = (bars.getLast hne).close := by
    rw [List.getLast?_map, hb]
    rfl
  have hatr : 0 ≤ atrOf bars := atrOf_nonneg bars hlh
  have h6321 : m63 ≤ m21 := recentLow_mono bars m63 m21 h63 h21
  have h21cp : m21 ≤ (bars.getLast hne).close :=
    le_trans (recentLow_le_last bars 21 m21 (bars.getLast hne) (by omega) hb h21)
      (hv _ hbmem).2.1
  refine ⟨_, stop_loss_shape bars h50 (by rw [h63]; exact pos63) (by rw [h21]; exact pos21), ?_⟩
  rw [h63, h21]
  simp only [Option.getD_some, hcp]
  set cp := (bars.getLast hne).close with hcpdef
  refine ⟨?_, ?_, ?_, ?_, ?_, ?_, h6321⟩
  · exact max_le_max (by linarith) h6321
  · exact max_le (by linarith) (by linarith)
  · exact max_le (by linarith) (by linarith)
  · linarith
  · trivial
  · trivial

/-- Witness bars for C1: 60 identical valid bars. -/
def c1WitnessBars : List Bar := List.replicate 60 ⟨12, 8, 10⟩

/-- Witness for `c1_stop_loss_ordering` at 60 constant bars. -/
theorem c1_stop_loss_ordering_witness :
    ((∀ b ∈ c1WitnessBars, 0 < b.low ∧ b.low ≤ b.close ∧ b.close ≤ b.high) ∧
      50 ≤ c1WitnessBars.length) ∧
    (∃ r, calculate_stop_loss_levels c1WitnessBars = .ok r ∧
      r.conservative_price ≤ r.moderate_price ∧
      r.conservative_price ≤ r.current_price ∧
      r.moderate_price ≤ r.current_price ∧
      r.aggressive_price ≤ r.current_price ∧
      r.conservative_price = max (r.current_price - 3 * atrOf c1WitnessBars) r.low_3m ∧
      r.moderate_price = max (r.current_price - 2 * atrOf c1WitnessBars) r.low_1m ∧
      r.low_3m ≤ r.low_1m) :=
  ⟨⟨by decide, by decide⟩,
    c1_stop_loss_ordering c1WitnessBars (by decide) (by decide)⟩

/-- Counterexample bars for C1: 42 wide bars at price 100 with low 50,
then 21 tight bars at price 91 with low 90 (ATR(14) = 1). -/
def c1Bars : List Bar :=
  List.replicate 42 ⟨100, 50, 100⟩ ++ List.replicate 21 ⟨91, 90, 91⟩

/-- C1 counterexample: a successful stop-loss calculation reports
conservative = 88 < moderate = 90 (aggressive = 89.5, current price 91), so
the claimed chain conservative ≥ moderate ≥ aggressive fails, and the
conservative level is NOT the closest to the current price (both other
levels are closer). -/
theorem c1_counterexample :
    slConservative (calculate_stop_loss_levels c1Bars) = some 88 ∧
    slModerate (calculate_stop_loss_levels c1Bars) = some 90 ∧
    slAggressive (calculate_stop_loss_levels c1Bars) = some (179/2) ∧
    slCurrentPrice (calculate_stop_loss_levels c1Bars) = some 91 ∧
    ¬ ((88 : ℚ) ≥ 90 ∧ (90 : ℚ) ≥ 179/2) := by
  with_unfolding_all decide

/-! ## VaR estimator: supporting lemmas -/

theorem insort_length (x : ℚ) (l : List ℚ) : (insort x l).length = l.length + 1 := by
  induction l with
  | nil => rfl
  | cons y ys ih =>
    by_cases h : x ≤ y
    · simp [insort, h]
    · simp [insort, h, ih]

theorem sortQ_go_length (l : List ℚ) : ∀ acc : List ℚ,
    (l.foldl (fun a x => insort x a) acc).length = acc.length + l.length := by
  induction l with
  | nil => intro acc; rfl
  | cons y ys ih =>
    intro acc
    simp [List.foldl_cons, ih, insort_length]
    omega

theorem sortQ_length (l : List ℚ) : (sortQ l).length = l.length := by
  simpa [sortQ] using sortQ_go_length l []

theorem sortQ_ne_nil (l : List ℚ) (h : l ≠ []) : sortQ l ≠ [] := by
  intro hs
  apply h
  have := sortQ_length l
  rw [hs] at this
  simpa using (List.length_eq_zero.mp this.symm)

theorem npPercentile_isSome (l : List ℚ) (q : ℚ) (hne : l ≠ [])
    (hq : ¬ (q < 0 ∨ 100 < q)) : ∃ v, npPercentile l q = some v := by
  unfold npPercentile
  rw [if_neg hq]
  cases hs : sortQ l with
  | nil => exact absurd hs (sortQ_ne_nil l hne)
  | cons x xs => exact ⟨_, rfl⟩

theorem pctChange_length (closes : List ℚ) :
    (pctChange closes).length = closes.length - 1 := by
  cases closes with
  | nil => rfl
  | cons p ps => simp [pctChange]

theorem bootstrapReturns_length (returns : List ℚ) (h : ℕ) (rng : ℕ → ℕ) :
    (bootstrapReturns returns h rng).length = 1000 := by
  simp [bootstrapReturns]

theorem bootstrapReturns_ne_nil (returns : List ℚ) (h : ℕ) (rng : ℕ → ℕ) :
    bootstrapReturns returns h rng ≠ [] := by
  intro hs
  have := bootstrapReturns_length returns h rng
  rw [hs] at this
  simp at this

/-- The bootstrap consumes only the first `1000 * period_days` draws of the
ambient stream. -/
theorem bootstrapReturns_congr (returns : List ℚ) (h : ℕ) (r1 r2 : ℕ → ℕ)
    (hagree : ∀ i, i < 1000 * h → r1 i = r2 i) :
    bootstrapReturns returns h r1 = bootstrapReturns returns h r2 := by
  unfold bootstrapReturns
  apply List.map_congr_left
  intro t ht
  have ht1000 : t < 1000 := List.mem_range.mp ht
  congr 1
  congr 1
  apply List.map_congr_left
  intro j hj
  have hjh : j < h := List.mem_range.mp hj
  have hlt : t * h + j < 1000 * h := by
    calc t * h + j < t * h + h := by omega
    _ = (t + 1) * h := by ring
    _ ≤ 1000 * h := Nat.mul_le_mul_right h (by omega)
  rw [hagree _ hlt]

/-- C2 (amended): the resampled-historical VaR is a deterministic function
of (price history, confidence level, horizon) and the first
1000 x horizon draws of the AMBIENT global RNG stream - the function
signature exposes no seed parameter, so reproducibility requires fixing the
global numpy state externally; runs whose ambient streams agree on those
draws produce identical output records, and the parametric VaR does not
depend on the RNG stream at all.  [The frozen claim asserts the
implementation exposes a seed to inject; it does not, see the
counterexample, where identical exposed inputs give different
historical-VaR outputs under different ambient streams.] -/
theorem c2_var_determinism (sqrtF ppf : ℚ → ℚ) (closes : List ℚ) (c : ℚ) (h : ℕ)
    (r1 r2 : ℕ → ℕ) (hagree : ∀ i, i < 1000 * h → r1 i = r2 i) :
    calculate_var sqrtF ppf closes c h r1 = calculate_var sqrtF ppf closes c h r2 ∧
    ∀ s1 s2 : ℕ → ℕ,
      varParametric (calculate_var sqrtF ppf closes c h s1) =
        varParametric (calculate_var sqrtF ppf closes c h s2) := by
  constructor
  · have hboot := bootstrapReturns_congr (pctChange closes) h r1 r2 hagree
    simp only [calculate_var, hboot]
  · intro s1 s2
    by_cases h60 : closes.length < 60
    · simp [calculate_var, h60]
    · by_cases h50 : (pctChange closes).length < 50
      · simp [calculate_var, h60, h50]
      · by_cases hq : ((1 - c) * 100) < 0 ∨ 100 < ((1 - c) * 100)
        · have hp1 : npPercentile (bootstrapReturns (pctChange closes) h s1) ((1 - c) * 100) = none := by
            unfold npPercentile
            rw [if_pos hq]
          have hp2 : npPercentile (bootstrapReturns (pctChange closes) h s2) ((1 - c) * 100) = none := by
            unfold npPercentile
            rw [if_pos hq]
          simp only [calculate_var, if_neg h60, if_neg h50, hp1, hp2]
        · obtain ⟨v1, hv1⟩ := npPercentile_isSome _ _ (bootstrapReturns_ne_nil (pctChange closes) h s1) hq
          obtain ⟨v2, hv2⟩ := npPercentile_isSome _ _ (bootstrapReturns_ne_nil (pctChange closes) h s2) hq
          simp only [calculate_var, if_neg h60, if_neg h50, hv1, hv2, varParametric]

/-- Price history for the C2 analysis: one jump then flat (61 bars). -/
def c2Closes : List ℚ := 100 :: List.replicate 60 200

/-- Witness for `c2_var_determinism`: two ambient streams that agree on the
first 1000 draws (horizon 1) yield identical outputs. -/
theorem c2_var_determinism_witness :
    (∀ i, i < 1000 * 1 → (fun _ : ℕ => 0) i = (fun j : ℕ => if j < 1000 then 0 else 7) i) ∧
    (calculate_var (fun q => q) (fun _ => 0) c2Closes (95/100) 1 (fun _ => 0) =
      calculate_var (fun q => q) (fun _ => 0) c2Closes (95/100) 1
        (fun j => if j < 1000 then 0 else 7) ∧
    ∀ s1 s2 : ℕ → ℕ,
      varParametric (calculate_var (fun q => q) (fun _ => 0) c2Closes (95/100) 1 s1) =
        varParametric (calculate_var (fun q => q) (fun _ => 0) c2Closes (95/100) 1 s2)) :=
  ⟨by decide,
    c2_var_determinism (fun q => q) (fun _ => 0) c2Closes (95/100) 1 _ _ (by decide)⟩

set_option maxHeartbeats 4000000 in
/-- C2 counterexample: identical exposed inputs (history, confidence 0.95,
horizon 1), but two different ambient RNG streams give historical VaR 100
versus 0 - the historical output is NOT a function of the exposed inputs,
and no seed parameter exists to hold fixed. -/
theorem c2_counterexample :
    isOkE (calculate_var (fun q => q) (fun _ => 0) c2Closes (95/100) 1 (fun _ => 0)) = true ∧
    isOkE (calculate_var (fun q => q) (fun _ => 0) c2Closes (95/100) 1 (fun _ => 1)) = true ∧
    varHistorical (calculate_var (fun q => q) (fun _ => 0) c2Closes (95/100) 1 (fun _ => 0)) =
      some 100 ∧
    varHistorical (calculate_var (fun q => q) (fun _ => 0) c2Closes (95/100) 1 (fun _ => 1)) =
      some 0 ∧
    varHistorical (calculate_var (fun q => q) (fun _ => 0) c2Closes (95/100) 1 (fun _ => 0)) ≠
      varHistorical (calculate_var (fun q => q) (fun _ => 0) c2Closes (95/100) 1 (fun _ => 1)) := by
  with_unfolding_all decide

/-- C8 (confirmed): a price history of fewer than 60 bars makes the VaR
estimator return the uniform failure payload (error string plus
DATA_UNAVAILABLE true after serialization) and no numeric VaR estimate;
with at least 60 bars of positive prices and a confidence level in [0, 1]
it succeeds (so it never fails for insufficient data). -/
theorem c8_var_min_bars (sqrtF ppf : ℚ → ℚ) (closes : List ℚ) (c : ℚ) (h : ℕ)
    (rng : ℕ → ℕ) :
    (closes.length < 60 →
      calculate_var sqrtF ppf closes c h rng = .error
        { error := "Insufficient data for VaR calculation (need 60+ days, got " ++
            toString closes.length ++ ")",
          message := some "Cannot calculate risk metrics without sufficient history" } ∧
      varHistorical (calculate_var sqrtF ppf closes c h rng) = none ∧
      varParametric (calculate_var sqrtF ppf closes c h rng) = none ∧
      uniformFailure (emitE varJson (calculate_var sqrtF ppf closes c h rng))) ∧
    ((∀ p ∈ closes, 0 < p) → 60 ≤ closes.length → 0 ≤ c → c ≤ 1 →
      isOkE (calculate_var sqrtF ppf closes c h rng) = true) := by
  constructor
  · intro h60
    have he : calculate_var sqrtF ppf closes c h rng = .error
        { error := "Insufficient data for VaR calculation (need 60+ days, got " ++
            toString closes.length ++ ")",
          message := some "Cannot calculate risk metrics without sufficient history" } := by
      simp only [calculate_var, if_pos h60]
    refine ⟨he, ?_, ?_, ?_⟩
    · rw [he]; rfl
    · rw [he]; rfl
    · exact emitE_fail _ _ _ he
  · intro _ h60 hc0 hc1
    have h60n : ¬ closes.length < 60 := by omega
    have h50 : ¬ (pctChange closes).length < 50 := by
      rw [pctChange_length]
      omega
    have hq : ¬ ((1 - c) * 100 < 0 ∨ 100 < (1 - c) * 100) := by
      push_neg
      constructor <;> nlinarith
    obtain ⟨v, hv⟩ := npPercentile_isSome _ ((1 - c) * 100)
      (bootstrapReturns_ne_nil (pctChange closes) h rng) hq
    simp only [calculate_var, if_neg h60n, if_neg h50, hv, isOkE]

/-- Ten flat bars, the insufficient-data example input of the claim. -/
def c8Closes10 : List ℚ := List.replicate 10 100

/-- 61 flat bars for the success branch. -/
def c8Closes61 : List ℚ := List.replicate 61 100

/-- Witness for `c8_var_min_bars`: 10 bars fail with the uniform payload,
61 positive bars at confidence 0.95 succeed. -/
theorem c8_var_min_bars_witness :
    (c8Closes10.length < 60 ∧
      calculate_var (fun q => q) (fun _ => 0) c8Closes10 (95/100) 1 (fun _ => 0) = .error
        { error := "Insufficient data for VaR calculation (need 60+ days, got 10)",
          message := some "Cannot calculate risk metrics without sufficient history" }) ∧
    ((∀ p ∈ c8Closes61, 0 < p) ∧ 60 ≤ c8Closes61.length ∧
      isOkE (calculate_var (fun q => q) (fun _ => 0) c8Closes61 (95/100) 1 (fun _ => 0)) = true) :=
  ⟨⟨by decide,
    ((c8_var_min_bars (fun q => q) (fun _ => 0) c8Closes10 (95/100) 1 (fun _ => 0)).1
      (by decide)).1⟩,
   ⟨by decide, by decide,
    (c8_var_min_bars (fun q => q) (fun _ => 0) c8Closes61 (95/100) 1 (fun _ => 0)).2
      (by decide) (by decide) (by with_unfolding_all decide) (by with_unfolding_all decide)⟩⟩

/-! ## Downside analyzer: Sortino ratio -/

theorem svarQ_nonneg (l : List ℚ) : 0 ≤ svarQ l ∨ (l.length : ℚ) - 1 < 0 := by
  rcases lt_or_le ((l.length : ℚ) - 1) 0 with h | h
  · exact Or.inr h
  · left
    unfold svarQ
    apply div_nonneg _ h
    rw [sumQ_eq_sum]
    apply List.sum_nonneg
    intro x hx
    obtain ⟨y, hy, rfl⟩ := List.mem_map.mp hx
    exact mul_self_nonneg _

/-- C7 (amended): in every successful downside-risk result the reported
Sortino ratio is null exactly when the reported downside deviation is null
(the float is NaN: fewer than two negative daily returns) or equals 0; when
a Sortino ratio is reported it equals (annualized mean daily return minus
the 7 percent risk-free constant) divided by (annualized downside deviation
in percent / 100).  [The frozen claim reads "null iff the downside
deviation equals 0"; a history with no negative returns has a null - not
zero - downside deviation with a null Sortino ratio, see the
counterexample.]  `sqrtF` is assumed to preserve nonnegativity, as the real
square root does. -/
theorem c7_sortino (sqrtF : ℚ → ℚ) (closes : List ℚ)
    (hsq : ∀ q, 0 ≤ q → 0 ≤ sqrtF q)
    (hok : isOkE (analyze_downside_metrics sqrtF closes) = true) :
    (sortinoOf (analyze_downside_metrics sqrtF closes) = some none ↔
      (ddevOf (analyze_downside_metrics sqrtF closes) = some none ∨
        ddevOf (analyze_downside_metrics sqrtF closes) = some (some 0))) ∧
    (∀ s d, sortinoOf (analyze_downside_metrics sqrtF closes) = some (some s) →
      ddevOf (analyze_downside_metrics sqrtF closes) = some (some d) →
      s = (meanQ (pctChange closes) * 252 - 7/100) / (d / 100)) ∧
    (ddevOf (analyze_downside_metrics sqrtF closes) = some none ↔
      ((pctChange closes).filter fun r => decide (r < 0)).length < 2) := by
  by_cases hlen : closes.length < 100
  · rw [show analyze_downside_metrics sqrtF closes = .error
        { error := "Insufficient data for drawdown analysis (need 100+ days)" } by
      simp [analyze_downside_metrics, hlen]] at hok
    simp [isOkE] at hok
  · simp only [analyze_downside_metrics, if_neg hlen, sortinoOf, ddevOf]
    set negs := (pctChange closes).filter fun r => decide (r < 0) with hnegs
    by_cases hn : negs.length < 2
    · simp only [stdQ, if_pos hn, Option.map_none']
      refine ⟨by simp, by simp, by simp [hn]⟩
    · have hvar : 0 ≤ svarQ negs := by
        rcases svarQ_nonneg negs with h | h
        · exact h
        · exfalso
          have : (2 : ℚ) ≤ (negs.length : ℚ) := by
            exact_mod_cast Nat.le_of_not_lt hn
          linarith
      have hD : 0 ≤ sqrtF (svarQ negs) * sqrtF 252 * 100 := by
        have h1 := hsq _ hvar
        have h2 := hsq 252 (by norm_num)
        positivity
      simp only [stdQ, if_neg hn, Option.map_some']
      rcases eq_or_lt_of_le hD with hzero | hpos
      · have hfalse : ¬ 0 < sqrtF (svarQ negs) * sqrtF 252 * 100 := by
          rw [← hzero]
          exact lt_irrefl 0
        rw [if_neg hfalse]
        refine ⟨by simp [← hzero], ?_, by simp [hn]⟩
        intro s d hs hd
        simp at hs
      · rw [if_pos hpos]
        refine ⟨?_, ?_, by simp [hn]⟩
        · constructor
          · intro h
            simp at h
          · rintro (h | h)
            · simp at h
            · simp only [Option.some.injEq] at h
              exact absurd h (ne_of_gt hpos)
        · intro s d hs hd
          simp only [Option.some.injEq] at hs hd
          rw [← hs, ← hd]

/-- 101 closes with exactly two distinct negative daily returns. -/
def c7WitnessCloses : List ℚ :=
  List.replicate 60 100 ++ [99, 100, 98] ++ List.replicate 38 100

/-- Witness for `c7_sortino` at `c7WitnessCloses` with the identity standing
in for the square root. -/
theorem c7_sortino_witness :
    ((∀ q : ℚ, 0 ≤ q → 0 ≤ (fun x : ℚ => x) q) ∧
      isOkE (analyze_downside_metrics (fun x : ℚ => x) c7WitnessCloses) = true) ∧
    ((sortinoOf (analyze_downside_metrics (fun x : ℚ => x) c7WitnessCloses) = some none ↔
        (ddevOf (analyze_downside_metrics (fun x : ℚ => x) c7WitnessCloses) = some none ∨
          ddevOf (analyze_downside_metrics (fun x : ℚ => x) c7WitnessCloses) = some (some 0))) ∧
      (∀ s d, sortinoOf (analyze_downside_metrics (fun x : ℚ => x) c7WitnessCloses) = some (some s) →
        ddevOf (analyze_downside_metrics (fun x : ℚ => x) c7WitnessCloses) = some (some d) →
        s = (meanQ (pctChange c7WitnessCloses) * 252 - 7/100) / (d / 100)) ∧
      (ddevOf (analyze_downside_metrics (fun x : ℚ => x) c7WitnessCloses) = some none ↔
        ((pctChange c7WitnessCloses).filter fun r => decide (r < 0)).length < 2)) :=
  ⟨⟨fun _ hq => hq, by with_unfolding_all decide⟩,
    c7_sortino (fun x : ℚ => x) c7WitnessCloses (fun _ hq => hq)
      (by with_unfolding_all decide)⟩

/-- 101 strictly increasing closes: no negative daily return exists. -/
def c7Closes : List ℚ := (List.range 101).map fun k => 100 + (k : ℚ)

set_option maxHeartbeats 1000000 in
/-- C7 counterexample: a successful run on strictly rising prices reports a
null Sortino ratio while the reported downside deviation is null (NaN), not
zero - refuting "the Sortino ratio is null if and only if the downside
deviation equals 0". -/
theorem c7_counterexample :
    isOkE (analyze_downside_metrics (fun x : ℚ => x) c7Closes) = true ∧
    sortinoOf (analyze_downside_metrics (fun x : ℚ => x) c7Closes) = some none ∧
    ddevOf (analyze_downside_metrics (fun x : ℚ => x) c7Closes) = some none ∧
    ¬ ddevOf (analyze_downside_metrics (fun x : ℚ => x) c7Closes) = some (some 0) := by
  with_unfolding_all decide

/-! ## Leverage assessor -/

/-- C9 (amended): when the debt/equity ratio field is absent or zero AND no
ratio can be derived (total debt missing or zero - Python truthiness - or
equity missing or not positive), the leverage assessor returns the
DataUnavailable failure payload; in particular a zero-debt company always
lands here, reported as data-unavailable rather than as Low leverage.
[The frozen claim additionally asserts failure whenever the ratio field
itself equals 0, even when a nonzero ratio is derivable from total debt and
equity; the code then succeeds, see the counterexample.] -/
theorem c9_zero_leverage (info : Info)
    (hfield : info.debtToEquity = none ∨ info.debtToEquity = some 0)
    (hderive : (truthy info.totalDebt && truthy info.totalStockholderEquity &&
      decide (0 < info.totalStockholderEquity.getD 0)) = false) :
    assess_leverage_risk info = .error
      { error := "Debt metrics not available",
        message := some "Cannot assess leverage without debt data" } := by
  have hft : truthy info.debtToEquity = false := by
    rcases hfield with h | h <;> simp [truthy, h]
  rcases Bool.and_eq_false_iff.mp hderive with h | h
  · rcases Bool.and_eq_false_iff.mp h with h2 | h2 <;>
      simp [assess_leverage_risk, hft, h2]
  · simp [assess_leverage_risk, hft, h]

/-- A fundamentals snapshot of a zero-debt company. -/
def c9WitnessInfo : Info := { debtToEquity := some 0, totalDebt := some 0 }

/-- Witness for `c9_zero_leverage`: ratio field 0 and total debt 0 gives the
failure payload. -/
theorem c9_zero_leverage_witness :
    ((c9WitnessInfo.debtToEquity = none ∨ c9WitnessInfo.debtToEquity = some 0) ∧
      (truthy c9WitnessInfo.totalDebt && truthy c9WitnessInfo.totalStockholderEquity &&
        decide (0 < c9WitnessInfo.totalStockholderEquity.getD 0)) = false) ∧
    assess_leverage_risk c9WitnessInfo = .error
      { error := "Debt metrics not available",
        message := some "Cannot assess leverage without debt data" } :=
  ⟨⟨Or.inr rfl, by decide⟩,
    c9_zero_leverage c9WitnessInfo (Or.inr rfl) (by decide)⟩

/-- A snapshot whose ratio field is zero but with derivable debt/equity. -/
def c9Info : Info :=
  { debtToEquity := some 0, totalDebt := some 50, totalStockholderEquity := some 100 }

/-- C9 counterexample: the ratio field equals 0 yet the assessor succeeds
(deriving debt/equity 50 percent from the components), returning a success
record - not the DataUnavailable payload the claim asserts. -/
theorem c9_counterexample :
    assess_leverage_risk c9Info = .ok
      { debt_to_equity := 50
        total_debt := some 50
        total_equity := some 100
        interest_coverage := none
        leverage_level := "Moderate"
        leverage_risk := "Manageable"
        risk_score := 1
        coverage_status := "Not available"
        refinancing_risks := ["Interest coverage not available - unable to assess"]
        recommendation := "Low leverage risk" } ∧
    errOfE (assess_leverage_risk c9Info) = none := by
  with_unfolding_all decide

/-! ## Percentile rank -/

/-- C6 (amended): a reported percentile rank equals (count of peers with a
strictly lower PRESENT value) divided by (count of peers whose value for
that metric is present) times 100, always lies in [0, 100], and is null
exactly when the subject value is missing or no peer value for the metric
is present.  [The frozen claim divides by the total peer count; a peer with
a missing value is excluded from the denominator, see the
counterexample.] -/
theorem c6_percentile_rank (value : Option ℚ) (peer_values : List (Option ℚ)) :
    (percentile_rank value peer_values = none ↔
      value = none ∨ peer_values.filterMap id = []) ∧
    ∀ q, percentile_rank value peer_values = some q →
      (∃ v, value = some v ∧
        q = (((peer_values.filterMap id).countP fun w => decide (w < v)) : ℚ) /
            ((peer_values.filterMap id).length : ℚ) * 100) ∧
      0 ≤ q ∧ q ≤ 100 := by
  constructor
  · cases value with
    | none => simp [percentile_rank]
    | some v =>
      cases hf : peer_values.filterMap id with
      | nil => simp [percentile_rank, hf]
      | cons x rest => simp [percentile_rank, hf]
  · intro q hq
    cases value with
    | none => simp [percentile_rank] at hq
    | some v =>
      cases hf : peer_values.filterMap id with
      | nil => simp [percentile_rank, hf] at hq
      | cons x rest =>
        simp only [percentile_rank, hf, Option.some.injEq] at hq
        have hlenpos : (0 : ℚ) < ((x :: rest).length : ℚ) := by
          exact_mod_cast List.length_pos.mpr (List.cons_ne_nil x rest)
        have hcle : (((x :: rest).countP fun w => decide (w < v)) : ℚ) ≤
            ((x :: rest).length : ℚ) := by
          exact_mod_cast List.countP_le_length _
        have hc0 : (0 : ℚ) ≤ (((x :: rest).countP fun w => decide (w < v)) : ℚ) := by
          positivity
        refine ⟨⟨v, rfl, hq.symm⟩, ?_, ?_⟩
        · rw [← hq]
          positivity
        · rw [← hq]
          have hdiv : (((x :: rest).countP fun w => decide (w < v)) : ℚ) /
              ((x :: rest).length : ℚ) ≤ 1 :=
            (div_le_one hlenpos).mpr hcle
          nlinarith
/-- Witness for `c6_percentile_rank`: subject 3 against present peers 1 and
5 ranks at 50. -/
theorem c6_percentile_rank_witness :
    percentile_rank (some 3) [some 1, some 5] = some 50 ∧
    ((∃ v, (some (3:ℚ)) = some v ∧
        (50:ℚ) = ((([some (1:ℚ), some 5].filterMap id).countP fun w => decide (w < v)) : ℚ) /
          (([some (1:ℚ), some 5].filterMap id).length : ℚ) * 100) ∧
      0 ≤ (50:ℚ) ∧ (50:ℚ) ≤ 100) :=
  ⟨by with_unfolding_all decide,
    (c6_percentile_rank (some 3) [some 1, some 5]).2 50 (by with_unfolding_all decide)⟩

/-- C6 counterexample: subject 10 against peers [5, missing]: the code
reports rank 100 (denominator 1 = present peers), not the
1/2 x 100 = 50 that a total-peer-count denominator would give. -/
theorem c6_counterexample :
    percentile_rank (some 10) [some 5, none] = some 100 ∧
    ¬ percentile_rank (some 10) [some 5, none] = some ((1 : ℚ) / 2 * 100) := by
  with_unfolding_all decide

/-! ## Sector peer valuation -/

/-- Projection: the reported peer count of a successful run. -/
def sectorPeerCount (e : Except FailPayload SectorRecord) : Option ℕ :=
  match e with
  | .ok r => some r.peer_count
  | .error _ => none

/-- The `peer_data` rows a fetch produces: subject first, then peers;
symbols whose fetch raised are skipped. -/
def peerRows (fetch : String → Option Info) (symbol : String) : List PeerRow :=
  (symbol :: getPeerStocks symbol 5).filterMap fun s =>
    (fetch (getNseSymbol s)).map (mkPeerRow s)

/-- C5 (amended): a successful sector comparison implies at least 2 fetched
rows INCLUDING THE SUBJECT (the guard is `len(peer_data) < 2` over subject
plus peers, so the subject row plus a single usable peer passes), and every
reported sector median is the median over exactly the peers whose value for
that metric is present.  [The frozen claim requires at least 2 usable peers
excluding the subject; one usable peer suffices, see the
counterexample.] -/
theorem c5_sector_peer_data (fetch : String → Option Info) (symbol0 : String)
    (r : SectorRecord)
    (hr : get_sector_valuation_multiples fetch symbol0 = .ok r) :
    2 ≤ (peerRows fetch (normSym symbol0)).length ∧
    r.peer_count = ((peerRows fetch (normSym symbol0)).filter
      fun p => p.symbol ≠ normSym symbol0).length ∧
    r.sector_medians.pe_ratio = medianQ ((((peerRows fetch (normSym symbol0)).filter
      fun p => p.symbol ≠ normSym symbol0).map (·.pe_ratio)).filterMap id) ∧
    r.sector_medians.forward_pe = medianQ ((((peerRows fetch (normSym symbol0)).filter
      fun p => p.symbol ≠ normSym symbol0).map (·.forward_pe)).filterMap id) ∧
    r.sector_medians.pb_ratio = medianQ ((((peerRows fetch (normSym symbol0)).filter
      fun p => p.symbol ≠ normSym symbol0).map (·.pb_ratio)).filterMap id) ∧
    r.sector_medians.ev_ebitda = medianQ ((((peerRows fetch (normSym symbol0)).filter
      fun p => p.symbol ≠ normSym symbol0).map (·.ev_ebitda)).filterMap id) ∧
    r.sector_medians.roe = medianQ ((((peerRows fetch (normSym symbol0)).filter
      fun p => p.symbol ≠ normSym symbol0).map (·.roe)).filterMap id) ∧
    r.sector_medians.profit_margin = medianQ ((((peerRows fetch (normSym symbol0)).filter
      fun p => p.symbol ≠ normSym symbol0).map (·.profit_margin)).filterMap id) := by
  cases hsec : getSectorForSymbol (normSym symbol0) with
  | none =>
    simp only [get_sector_valuation_multiples, hsec] at hr
    exact Except.noConfusion hr
  | some sector =>
    cases hpeers : getPeerStocks (normSym symbol0) 5 with
    | nil =>
      simp only [get_sector_valuation_multiples, hsec, hpeers] at hr
      exact Except.noConfusion hr
    | cons p ps =>
      simp only [peerRows, hpeers]
      simp only [get_sector_valuation_multiples, hsec, hpeers] at hr
      split at hr
      · exact Except.noConfusion hr
      · rename_i hlen2
        split at hr
        · exact Except.noConfusion hr
        · rename_i target hfind
          split at hr
          · exact Except.noConfusion hr
          · rename_i pe_pct hpe
            split at hr
            · exact Except.noConfusion hr
            · rename_i roe_pct hroe
              injection hr with hr
              subst hr
              refine ⟨by omega, rfl, ?_, ?_, ?_, ?_, ?_, ?_⟩ <;> simp [safe_median]

/-- Fetch results where only the subject TCS and one peer INFY respond. -/
def c5Fetch : String → Option Info := fun s =>
  if s = "TCS.NS" then
    some { trailingPE := some 25, returnOnEquity := some (2/10) }
  else if s = "INFY.NS" then
    some { trailingPE := some 10, returnOnEquity := some (3/10) }
  else none

/-- The record the sector comparison produces for `c5Fetch`. -/
def c5Record : SectorRecord :=
  { symbol := "TCS"
    sector := "IT"
    peer_count := 1
    peers := ["INFY"]
    target_metrics :=
      { symbol := "TCS", pe_ratio := some 25, forward_pe := none, pb_ratio := none
        ev_ebitda := none, roe := some (2/10), profit_margin := none, market_cap := none }
    sector_medians :=
      { pe_ratio := some 10, forward_pe := none, pb_ratio := none
        ev_ebitda := none, roe := some (3/10), profit_margin := none }
    percentile_ranks :=
      { pe_ratio := some 100, pb_ratio := none, ev_ebitda := none, roe := some 0 }
    relative_valuation := "Premium to sector"
    relative_quality := "Below average quality" }

set_option maxHeartbeats 1000000 in
/-- Witness for `c5_sector_peer_data` at `c5Fetch`. -/
theorem c5_sector_peer_data_witness :
    get_sector_valuation_multiples c5Fetch "TCS" = .ok c5Record ∧
    (2 ≤ (peerRows c5Fetch (normSym "TCS")).length ∧
    c5Record.peer_count = ((peerRows c5Fetch (normSym "TCS")).filter
      fun p => p.symbol ≠ normSym "TCS").length ∧
    c5Record.sector_medians.pe_ratio = medianQ ((((peerRows c5Fetch (normSym "TCS")).filter
      fun p => p.symbol ≠ normSym "TCS").map (·.pe_ratio)).filterMap id) ∧
    c5Record.sector_medians.forward_pe = medianQ ((((peerRows c5Fetch (normSym "TCS")).filter
      fun p => p.symbol ≠ normSym "TCS").map (·.forward_pe)).filterMap id) ∧
    c5Record.sector_medians.pb_ratio = medianQ ((((peerRows c5Fetch (normSym "TCS")).filter
      fun p => p.symbol ≠ normSym "TCS").map (·.pb_ratio)).filterMap id) ∧
    c5Record.sector_medians.ev_ebitda = medianQ ((((peerRows c5Fetch (normSym "TCS")).filter
      fun p => p.symbol ≠ normSym "TCS").map (·.ev_ebitda)).filterMap id) ∧
    c5Record.sector_medians.roe = medianQ ((((peerRows c5Fetch (normSym "TCS")).filter
      fun p => p.symbol ≠ normSym "TCS").map (·.roe)).filterMap id) ∧
    c5Record.sector_medians.profit_margin = medianQ ((((peerRows c5Fetch (normSym "TCS")).filter
      fun p => p.symbol ≠ normSym "TCS").map (·.profit_margin)).filterMap id)) :=
  ⟨by with_unfolding_all decide,
    c5_sector_peer_data c5Fetch "TCS" c5Record (by with_unfolding_all decide)⟩

set_option maxHeartbeats 1000000 in
/-- C5 counterexample: with the subject and a single usable peer the call
SUCCEEDS (peer_count = 1), although fewer than 2 peers excluding the
subject have usable data - the `len(peer_data) < 2` guard counts the
subject row. -/
theorem c5_counterexample :
    isOkE (get_sector_valuation_multiples c5Fetch "TCS") = true ∧
    sectorPeerCount (get_sector_valuation_multiples c5Fetch "TCS") = some 1 ∧
    ¬ (2 ≤ 1) := by
  with_unfolding_all decide

/-! ## Relative valuation: fair-value range -/

theorem meanQ_between (x : ℚ) (xs : List ℚ) :
    pyMin x xs ≤ meanQ (x :: xs) ∧ meanQ (x :: xs) ≤ pyMax x xs := by
  have hn : (0 : ℚ) < ((x :: xs).length : ℚ) := by
    exact_mod_cast List.length_pos.mpr (List.cons_ne_nil x xs)
  have hlow : ∀ y ∈ x :: xs, pyMin x xs ≤ y := by
    intro y hy
    rcases List.mem_cons.mp hy with h | h
    · subst h; exact pyMin_le_head _ _
    · exact pyMin_le_mem _ _ _ h
  have hhigh : ∀ y ∈ x :: xs, y ≤ pyMax x xs := by
    intro y hy
    rcases List.mem_cons.mp hy with h | h
    · subst h; exact le_pyMax_head _ _
    · exact le_pyMax_mem _ _ _ h
  have hsumlo : ((x :: xs).length : ℚ) * pyMin x xs ≤ (x :: xs).sum := by
    have := List.card_nsmul_le_sum (x :: xs) (pyMin x xs) hlow
    simpa [nsmul_eq_mul] using this
  have hsumhi : (x :: xs).sum ≤ ((x :: xs).length : ℚ) * pyMax x xs := by
    have := List.sum_le_card_nsmul (x :: xs) (pyMax x xs) hhigh
    simpa [nsmul_eq_mul] using this
  constructor
  · rw [meanQ, sumQ_eq_sum, le_div_iff₀ hn]
    linarith
  · rw [meanQ, sumQ_eq_sum, div_le_iff₀ hn]
    linarith

/-- Projection: the min/average/max fair-value triple of a successful run. -/
def relValRangeOf (e : Except FailPayload RelValRecord) : Option (ℚ × ℚ × ℚ) :=
  match e with
  | .ok r => some (r.fv_min, r.fv_average, r.fv_max)
  | .error _ => none

/-- Projection: number of valuation methods of a successful run. -/
def relValMethodCount (e : Except FailPayload RelValRecord) : Option ℕ :=
  match e with
  | .ok r => some r.valuation_methods.length
  | .error _ => none

/-- C4 (amended): every successful relative-valuation result satisfies
min ≤ average ≤ max.  [The frozen claim additionally asserts min ≠ max
whenever at least 2 methods are available; two methods can coincide
numerically and collapse the range to a point, see the counterexample.] -/
theorem c4_fair_value_range (fetch : String → Option Info) (symbol0 : String)
    (r : RelValRecord)
    (hr : calculate_relative_valuation fetch symbol0 = .ok r) :
    r.fv_min ≤ r.fv_average ∧ r.fv_average ≤ r.fv_max := by
  simp only [calculate_relative_valuation] at hr
  repeat' split at hr
  all_goals try exact Except.noConfusion hr
  all_goals
    injection hr with hr
    subst hr
    simp only [List.map_cons]
    exact meanQ_between _ _

/-- Fetch for the C4 analysis: subject TCS with EPS 10 and book value 20,
peer INFY with median P/E 10 and P/B 5, so both methods yield 100. -/
def c4Fetch : String → Option Info := fun s =>
  if s = "TCS.NS" then
    some { trailingPE := some 25, returnOnEquity := some (2/10),
           currentPrice := some 100, trailingEps := some 10, bookValue := some 20 }
  else if s = "INFY.NS" then
    some { trailingPE := some 10, priceToBook := some 5, returnOnEquity := some (3/10) }
  else none

set_option maxHeartbeats 1000000 in
/-- C4 counterexample: two valuation methods are available, yet both give
fair value 100, so the reported range is the single point
min = average = max = 100 - refuting "min ≠ max whenever ≥ 2 methods are
available". -/
theorem c4_counterexample :
    relValMethodCount (calculate_relative_valuation c4Fetch "TCS") = some 2 ∧
    relValRangeOf (calculate_relative_valuation c4Fetch "TCS") = some (100, 100, 100) ∧
    ¬ (100 : ℚ) ≠ (100 : ℚ) := by
  with_unfolding_all decide

/-- Fetch for the C4 witness: book value 30 spreads the two methods. -/
def c4WitnessFetch : String → Option Info := fun s =>
  if s = "TCS.NS" then
    some { trailingPE := some 25, returnOnEquity := some (2/10),
           currentPrice := some 100, trailingEps := some 10, bookValue := some 30 }
  else if s = "INFY.NS" then
    some { trailingPE := some 10, priceToBook := some 5, returnOnEquity := some (3/10) }
  else none

/-- The record `calculate_relative_valuation` produces for
`c4WitnessFetch`. -/
def c4Record : RelValRecord :=
  { current_price := 100
    fv_min := 100
    fv_average := 125
    fv_max := 150
    valuation_methods := [("PE-based", 100), ("PB-based", 150)]
    to_min := 0
    to_average := 25
    to_max := 50
    valuation_verdict := "Undervalued" }

set_option maxHeartbeats 1000000 in
/-- Witness for `c4_fair_value_range` at `c4WitnessFetch`. -/
theorem c4_fair_value_range_witness :
    calculate_relative_valuation c4WitnessFetch "TCS" = .ok c4Record ∧
    (c4Record.fv_min ≤ c4Record.fv_average ∧ c4Record.fv_average ≤ c4Record.fv_max) :=
  ⟨by with_unfolding_all decide,
    c4_fair_value_range c4WitnessFetch "TCS" c4Record (by with_unfolding_all decide)⟩

/-! ## Scenario valuation builder -/

/-- C10 (confirmed): in every successful scenario valuation with strictly
positive trailing EPS and trailing P/E, each target price equals
EPS x (1 + earnings_growth) x (P/E x pe_multiple_change) with the fixed
assumption sets (+20 percent/x1.10, +5 percent/x1.00, -15 percent/x0.90),
and the targets are strictly ordered bear < base < bull. -/
theorem c10_scenario_targets (info : Info) (r : ScenValRecord)
    (hr : build_scenario_valuations info = .ok r)
    (heps : 0 < r.current_eps) (hpe : 0 < r.current_pe) :
    r.bull.target_price = r.current_eps * (1 + 20/100) * (r.current_pe * (11/10)) ∧
    r.base.target_price = r.current_eps * (1 + 5/100) * (r.current_pe * 1) ∧
    r.bear.target_price = r.current_eps * (1 + -(15/100)) * (r.current_pe * (9/10)) ∧
    r.bear.target_price < r.base.target_price ∧
    r.base.target_price < r.bull.target_price := by
  simp only [build_scenario_valuations] at hr
  repeat' split at hr
  all_goals try exact Except.noConfusion hr
  all_goals
    injection hr with hr
    subst hr
    simp only [scenOut] at heps hpe ⊢
    refine ⟨?_, ?_, ?_, ?_, ?_⟩ <;> first | trivial | nlinarith [mul_pos heps hpe]

/-- Snapshot for the C10 witness: price 100, P/E 20, EPS 10. -/
def c10Info : Info :=
  { currentPrice := some 100, trailingPE := some 20, trailingEps := some 10 }

/-- The record `build_scenario_valuations` produces for `c10Info`. -/
def c10Record : ScenValRecord :=
  { current_price := 100
    current_pe := 20
    current_eps := 10
    bull := { earnings_growth := 20/100, pe_multiple_change := 11/10, probability := 1/4,
              future_eps := 12, future_pe := 22, target_price := 264, upside_pct := 164 }
    base := { earnings_growth := 5/100, pe_multiple_change := 1, probability := 1/2,
              future_eps := 21/2, future_pe := 20, target_price := 210, upside_pct := 110 }
    bear := { earnings_growth := -(15/100), pe_multiple_change := 9/10, probability := 1/4,
              future_eps := 17/2, future_pe := 18, target_price := 153, upside_pct := 53 }
    risk_reward := some (164/53)
    recommendation := "Attractive" }

/-- Witness for `c10_scenario_targets` at `c10Info`. -/
theorem c10_scenario_targets_witness :
    (build_scenario_valuations c10Info = .ok c10Record ∧
      0 < c10Record.current_eps ∧ 0 < c10Record.current_pe) ∧
    (c10Record.bull.target_price =
        c10Record.current_eps * (1 + 20/100) * (c10Record.current_pe * (11/10)) ∧
      c10Record.base.target_price =
        c10Record.current_eps * (1 + 5/100) * (c10Record.current_pe * 1) ∧
      c10Record.bear.target_price =
        c10Record.current_eps * (1 + -(15/100)) * (c10Record.current_pe * (9/10)) ∧
      c10Record.bear.target_price < c10Record.base.target_price ∧
      c10Record.base.target_price < c10Record.bull.target_price) :=
  ⟨⟨by with_unfolding_all decide, by with_unfolding_all decide, by with_unfolding_all decide⟩,
    c10_scenario_targets c10Info c10Record (by with_unfolding_all decide)
      (by with_unfolding_all decide) (by with_unfolding_all decide)⟩

/-! ## Output boundary: sanitization and the uniform failure payload -/

/-- C3 (confirmed): every component is a total function returning a
structured record; after `_safe_json_dumps` serialization no emitted value
contains a NaN/Infinity float (each such float is replaced by null), and
every failing run emits the uniform failure payload carrying an `error`
string and `DATA_UNAVAILABLE: true`.  Stated for the sanitizer itself and
for each of the nine engine components. -/
theorem c3_output_sanitization :
    (∀ v, noBadJ (sanitizeJ v) = true) ∧
    (∀ (sqrtF ppf : ℚ → ℚ) (closes : List ℚ) (c : ℚ) (h : ℕ) (rng : ℕ → ℕ),
      noBadJ (emitE varJson (calculate_var sqrtF ppf closes c h rng)) = true ∧
      ∀ f, calculate_var sqrtF ppf closes c h rng = .error f →
        uniformFailure (emitE varJson (calculate_var sqrtF ppf closes c h rng))) ∧
    (∀ (sqrtF : ℚ → ℚ) (closes : List ℚ),
      noBadJ (emitE downsideJson (analyze_downside_metrics sqrtF closes)) = true ∧
      ∀ f, analyze_downside_metrics sqrtF closes = .error f →
        uniformFailure (emitE downsideJson (analyze_downside_metrics sqrtF closes))) ∧
    (∀ info : Info,
      noBadJ (emitE leverageJson (assess_leverage_risk info)) = true ∧
      ∀ f, assess_leverage_risk info = .error f →
        uniformFailure (emitE leverageJson (assess_leverage_risk info))) ∧
    (∀ bars : List Bar,
      noBadJ (emitE stopLossJson (calculate_stop_loss_levels bars)) = true ∧
      ∀ f, calculate_stop_loss_levels bars = .error f →
        uniformFailure (emitE stopLossJson (calculate_stop_loss_levels bars))) ∧
    (∀ (sqrtF : ℚ → ℚ) (info : Info) (closes : List ℚ),
      noBadJ (emitE scenarioRiskJson (model_scenario_risks sqrtF info closes)) = true ∧
      ∀ f, model_scenario_risks sqrtF info closes = .error f →
        uniformFailure (emitE scenarioRiskJson (model_scenario_risks sqrtF info closes))) ∧
    (∀ (fetch : String → Option Info) (symbol0 : String),
      noBadJ (emitE sectorJson (get_sector_valuation_multiples fetch symbol0)) = true ∧
      ∀ f, get_sector_valuation_multiples fetch symbol0 = .error f →
        uniformFailure (emitE sectorJson (get_sector_valuation_multiples fetch symbol0))) ∧
    (∀ (fetch : String → Option Info) (symbol0 : String),
      noBadJ (emitE relValJson (calculate_relative_valuation fetch symbol0)) = true ∧
      ∀ f, calculate_relative_valuation fetch symbol0 = .error f →
        uniformFailure (emitE relValJson (calculate_relative_valuation fetch symbol0))) ∧
    (∀ info : Info,
      noBadJ (emitE scenValJson (build_scenario_valuations info)) = true ∧
      ∀ f, build_scenario_valuations info = .error f →
        uniformFailure (emitE scenValJson (build_scenario_valuations info))) ∧
    (∀ (fetch : String → Option Info) (symbol0 : String),
      noBadJ (emitE driversJson (identify_multiple_drivers fetch symbol0)) = true ∧
      ∀ f, identify_multiple_drivers fetch symbol0 = .error f →
        uniformFailure (emitE driversJson (identify_multiple_drivers fetch symbol0))) :=
  ⟨fun v => noBad_sanitizeJ v,
   fun _ _ _ _ _ _ => ⟨emitE_noBad _ _, fun f hf => emitE_fail _ _ f hf⟩,
   fun _ _ => ⟨emitE_noBad _ _, fun f hf => emitE_fail _ _ f hf⟩,
   fun _ => ⟨emitE_noBad _ _, fun f hf => emitE_fail _ _ f hf⟩,
   fun _ => ⟨emitE_noBad _ _, fun f hf => emitE_fail _ _ f hf⟩,
   fun _ _ _ => ⟨emitE_noBad _ _, fun f hf => emitE_fail _ _ f hf⟩,
   fun _ _ => ⟨emitE_noBad _ _, fun f hf => emitE_fail _ _ f hf⟩,
   fun _ _ => ⟨emitE_noBad _ _, fun f hf => emitE_fail _ _ f hf⟩,
   fun _ => ⟨emitE_noBad _ _, fun f hf => emitE_fail _ _ f hf⟩,
   fun _ _ => ⟨emitE_noBad _ _, fun f hf => emitE_fail _ _ f hf⟩⟩

/-- Witness for `c3_output_sanitization`: the VaR estimator on an empty
history fails, and the emitted payload is the uniform failure payload with
no bad float. -/
theorem c3_output_sanitization_witness :
    (calculate_var (fun q => q) (fun _ => 0) [] 1 1 (fun _ => 0) = .error
      { error := "Insufficient data for VaR calculation (need 60+ days, got 0)",
        message := some "Cannot calculate risk metrics without sufficient history" }) ∧
    (noBadJ (emitE varJson (calculate_var (fun q => q) (fun _ => 0) [] 1 1 (fun _ => 0))) = true ∧
      uniformFailure (emitE varJson (calculate_var (fun q => q) (fun _ => 0) [] 1 1 (fun _ => 0)))) :=
  ⟨by decide,
    (c3_output_sanitization.2.1 (fun q => q) (fun _ => 0) [] 1 1 (fun _ => 0)).1,
    (c3_output_sanitization.2.1 (fun q => q) (fun _ => 0) [] 1 1 (fun _ => 0)).2
      { error := "Insufficient data for VaR calculation (need 60+ days, got 0)",
        message := some "Cannot calculate risk metrics without sufficient history" }
      (by decide)⟩
